import Mathlib

/-!
Verification of the EvoCreature simulation engine.

This file gives a shallow embedding, over `ℚ`, of the core simulation code
(`src/types/Vision.ts`, `src/types/Brain.ts`, the `Genome` module,
`src/types/Creature.ts`, `src/types/Arena.ts`, the generation-end portion of
the PixiCanvas simulation ticker and `createInitialPopulation` from
`src/hooks/useCreatureNames.ts`) and proves, or refutes, the specification
claims about it.

Modelling conventions, used throughout:
* JS `number` is modelled by `ℚ` (exact arithmetic; the claims under study are
  about exact algebraic structure, not float rounding).
* The transcendental functions `Math.cos` / `Math.sin` do not exist on `ℚ`;
  every definition that uses them takes explicit function parameters
  `cosF sinF : ℚ → ℚ` standing for them.  The activation function of a
  network (the sigmoid `1/(1+exp(-x))` in the source) is likewise passed as an
  explicit parameter `σ : ℚ → ℚ` to `process`; its real-valued definition
  `sigmoid : ℝ → ℝ` appears below for the range claim.
* `Math.random()` draws are modelled as explicit streams of values passed in as
  parameters (a value in `[0,1)` per draw, or a `Bool` per coin flip).
* `Math.sqrt` appears in the source only to turn an intersection point back
  into a distance along a unit-length ray direction, where the distance equals
  the ray parameter `t`; the embedding tracks `t` directly.
* JS exceptions are modelled with `Except String`; `null`/`undefined` results
  with `Option`.
-/

namespace EvoCreature

/-- 2-D point/direction (`Vector2D` in Creature.ts). -/
structure Vector2D where
  x : ℚ
  y : ℚ
deriving Repr, DecidableEq

/-- Axis-aligned rectangle (`Rectangle` in Creature.ts). -/
structure Rectangle where
  x : ℚ
  y : ℚ
  width : ℚ
  height : ℚ
deriving Repr, DecidableEq

/-! ## VisionSystem (src/types/Vision.ts) -/

/-- One vision ray (`Ray` in Vision.ts). -/
structure Ray where
  origin : Vector2D
  direction : Vector2D
  angle : ℚ
  length : ℚ
  maxLength : ℚ
deriving Repr, DecidableEq

/-- Vision-system configuration (`VisionConfig` in Vision.ts). -/
structure VisionConfig where
  rayCount : ℕ
  maxDistance : ℚ
  fovAngle : ℚ
deriving Repr, DecidableEq

/-- One perception sample (`VisionData` in Vision.ts). -/
structure VisionData where
  rays : List Ray
  distances : List ℚ
deriving Repr, DecidableEq

/-- The `1e-10` degeneracy threshold used by `rayRectangleIntersection`. -/
def dirEps : ℚ := 1 / 10000000000

/-- Final acceptance step of the slab test (Vision.ts lines 156-176): reject an
empty interval or an interval entirely behind the origin, pick the nearest
non-negative parameter, and reject hits beyond `maxDistance`. -/
def acceptT (maxDistance tNear tFar : ℚ) : Option ℚ :=
  if tNear > tFar ∨ tFar < 0 then none
  else
    let t := if tNear ≥ 0 then tNear else tFar
    if t > maxDistance then none else some t

/-- Slab-method ray/rectangle intersection
(`VisionSystem.rayRectangleIntersection`, Vision.ts lines 110-177).

The source returns the intersection *point* `origin + t·direction`; its only
caller immediately converts that point back to a distance with `Math.sqrt`,
which for the unit-length direction vectors produced by `cos`/`sin` equals the
accepted parameter `t` itself, so the embedding returns `t`.

The JS code encodes an axis-parallel ray that lies inside its slab with the
interval `(-Infinity, Infinity)`; combining `max`/`min` with those infinities
leaves exactly the finite interval of the other axis, which is what the
corresponding branch below uses directly. -/
def rayRectangleIntersection (maxDistance : ℚ) (origin direction : Vector2D)
    (rect : Rectangle) : Option ℚ :=
  if |direction.x| < dirEps ∧ |direction.y| < dirEps then none
  else
    let minX := rect.x
    let minY := rect.y
    let maxX := rect.x + rect.width
    let maxY := rect.y + rect.height
    if |direction.x| < dirEps then
      -- ray parallel to the Y axis
      if origin.x < minX ∨ origin.x > maxX then none
      else
        let invDirY := 1 / direction.y
        let t1 := (minY - origin.y) * invDirY
        let t2 := (maxY - origin.y) * invDirY
        acceptT maxDistance (min t1 t2) (max t1 t2)
    else if |direction.y| < dirEps then
      -- ray parallel to the X axis
      if origin.y < minY ∨ origin.y > maxY then none
      else
        let invDirX := 1 / direction.x
        let t1 := (minX - origin.x) * invDirX
        let t2 := (maxX - origin.x) * invDirX
        acceptT maxDistance (min t1 t2) (max t1 t2)
    else
      let invDirX := 1 / direction.x
      let invDirY := 1 / direction.y
      let tMinX := min ((minX - origin.x) * invDirX) ((maxX - origin.x) * invDirX)
      let tMaxX := max ((minX - origin.x) * invDirX) ((maxX - origin.x) * invDirX)
      let tMinY := min ((minY - origin.y) * invDirY) ((maxY - origin.y) * invDirY)
      let tMaxY := max ((minY - origin.y) * invDirY) ((maxY - origin.y) * invDirY)
      acceptT maxDistance (max tMinX tMinY) (min tMaxX tMaxY)

/-- Loop body of `VisionSystem.castRay` (Vision.ts lines 84-104): keep the
the strictly nearest hit, starting from `nearestDistance = maxDistance`.
The source compares Euclidean distances of intersection points; with the unit
ray directions these are the parameters `t` tracked here. -/
def castRayAux (maxDistance : ℚ) (origin direction : Vector2D) :
    List Rectangle → Option ℚ × ℚ → Option ℚ × ℚ
  | [], acc => acc
  | obstacle :: rest, acc =>
      let acc' := match rayRectangleIntersection maxDistance origin direction obstacle with
        | some t => if t < acc.2 then (some t, t) else acc
        | none => acc
      castRayAux maxDistance origin direction rest acc'

/-- `VisionSystem.castRay`: nearest hit parameter among all obstacles, `none`
when no obstacle is hit strictly closer than `maxDistance`. -/
def castRay (maxDistance : ℚ) (origin direction : Vector2D)
    (obstacles : List Rectangle) : Option ℚ :=
  (castRayAux maxDistance origin direction obstacles (none, maxDistance)).1

/-- Body of the per-ray loop of `castVision` (Vision.ts lines 57-75): cast one
ray and return its `(length, normalized distance)`. -/
def castSingleRay (maxDistance : ℚ) (position direction : Vector2D)
    (allObstacles : List Rectangle) : ℚ × ℚ :=
  let distance := match castRay maxDistance position direction allObstacles with
    | some t => t
    | none => maxDistance
  (min distance maxDistance, min (distance / maxDistance) 1)

/-- Angle of ray `i`: `startAngle + i * angleStep` with
`startAngle = rotation - fov/2` and `angleStep = fov / (rayCount - 1)`
(Vision.ts lines 47-51). -/
def castVisionRayAngle (config : VisionConfig) (rotation : ℚ) (i : ℕ) : ℚ :=
  (rotation - config.fovAngle / 2)
    + (i : ℚ) * (config.fovAngle / ((config.rayCount : ℚ) - 1))

/-- Direction of ray `i` (Vision.ts lines 52-55). -/
def castVisionRayDirection (config : VisionConfig) (cosF sinF : ℚ → ℚ)
    (rotation : ℚ) (i : ℕ) : Vector2D :=
  ⟨cosF (castVisionRayAngle config rotation i),
   sinF (castVisionRayAngle config rotation i)⟩

/-- `VisionSystem.castVision` (Vision.ts lines 36-79), with `cos`/`sin`
supplied as the parameters `cosF`/`sinF`. -/
def castVision (config : VisionConfig) (cosF sinF : ℚ → ℚ) (position : Vector2D)
    (rotation : ℚ) (obstacles otherCreatures : List Rectangle) : VisionData :=
  let allObstacles := obstacles ++ otherCreatures
  let castAt := fun (i : ℕ) =>
    let direction := castVisionRayDirection config cosF sinF rotation i
    let r := castSingleRay config.maxDistance position direction allObstacles
    ((⟨position, direction, castVisionRayAngle config rotation i, r.1,
        config.maxDistance⟩ : Ray), r.2)
  ⟨(List.range config.rayCount).map (fun i => (castAt i).1),
   (List.range config.rayCount).map (fun i => (castAt i).2)⟩

/-- `createDefaultVisionSystem` (Vision.ts lines 246-252); the field-of-view
angle π/3 is irrational and is abstracted as the parameter `fovAngle`, which
no claim depends on. -/
def createDefaultVisionSystem (fovAngle : ℚ) : VisionConfig :=
  ⟨10, 200, fovAngle⟩

/-! ## Brain (src/types/Brain.ts) -/

/-- The weight/bias tensors of a network (`NeuralNetwork` in Brain.ts).
The source's third field, `activationFunction`, is always the sigmoid
`x ↦ 1/(1+exp(-x))`, which is not representable over `ℚ`; the embedding
passes the activation explicitly to `process` as a parameter `σ` instead of
storing it. -/
structure NeuralNetwork where
  weights : List (List (List ℚ))
  biases : List (List ℚ)
deriving Repr, DecidableEq

/-- `BrainConfig` from Brain.ts.  `mutationRate`/`mutationStrength` are shown
after the constructor merged in their defaults (0.1 and 0.3). -/
structure BrainConfig where
  inputSize : ℕ
  hiddenLayers : Option (List ℕ)
  outputSize : ℕ
  mutationRate : ℚ
  mutationStrength : ℚ
  hiddenSize : Option ℕ
deriving Repr, DecidableEq

/-- A brain: configuration plus network tensors. -/
structure Brain where
  config : BrainConfig
  network : NeuralNetwork
deriving Repr, DecidableEq

/-- The real sigmoid `1/(1+exp(-x))` (`Brain.sigmoid`, Brain.ts lines 82-84),
stated over `ℝ` for the range claim. -/
noncomputable def sigmoid (x : ℝ) : ℝ := 1 / (1 + Real.exp (-x))

/-- The inner per-layer computation of `Brain.process` (Brain.ts lines
104-120): one new activation per neuron, `σ(bias + Σ activations·weights)`.
The source accumulates the sum over the indices of the current activation
vector; the embedding forms the same sum by zipping, which agrees with the
source whenever the tensors are well-formed. -/
def layerStep (σ : ℚ → ℚ) (activations : List ℚ)
    (layer : List (List ℚ) × List ℚ) : List ℚ :=
  (layer.1.zip layer.2).map fun neuron =>
    σ (neuron.2 + ((neuron.1.zip activations).map fun wa => wa.2 * wa.1).sum)

/-- One forward pass through all the layers (`Brain.process` main loop,
Brain.ts lines 101-122), with activation `σ`. -/
def processNetwork (σ : ℚ → ℚ) (net : NeuralNetwork) (inputs : List ℚ) : List ℚ :=
  (net.weights.zip net.biases).foldl (layerStep σ) inputs

/-- `Brain.process` (Brain.ts lines 96-123): throws on an input-size mismatch,
otherwise runs the forward pass. -/
def Brain.process (σ : ℚ → ℚ) (b : Brain) (inputs : List ℚ) : Except String (List ℚ) :=
  if inputs.length ≠ b.config.inputSize then
    Except.error "input size mismatch"
  else
    Except.ok (processNetwork σ b.network inputs)

/-- `Brain.areCompatible` (Brain.ts lines 234-261): equal input/output sizes
and identical hidden-layer lists; `false` when either list is absent.  The
source checks the lengths and then each entry, i.e. list equality. -/
def Brain.areCompatible (brain1 brain2 : Brain) : Bool :=
  let config1 := brain1.config
  let config2 := brain2.config
  if config1.inputSize ≠ config2.inputSize ∨ config1.outputSize ≠ config2.outputSize then
    false
  else
    match config1.hiddenLayers, config2.hiddenLayers with
    | some h1, some h2 => h1 == h2
    | _, _ => false

/-- The `[-5, 5]` clamp applied after a mutation perturbation
(`Math.max(-5, Math.min(5, w))`). -/
def clampWeight (x : ℚ) : ℚ := max (-5) (min 5 x)

/-- Element of a 3-level tensor at `[l][n][w]`, defaulting like a JS
out-of-range access would be guarded in the well-formed case. -/
def tensorGet (t : List (List (List ℚ))) (l n w : ℕ) : ℚ :=
  ((t.getD l []).getD n []).getD w 0

/-- Element of a 2-level tensor at `[l][n]`. -/
def matrixGet (t : List (List ℚ)) (l n : ℕ) : ℚ :=
  (t.getD l []).getD n 0

/-- `Brain.crossover` (Brain.ts lines 128-173).  The per-element coin flips
`Math.random() < 0.5` are supplied as the streams `coinW`/`coinB`, indexed by
tensor position; `true` selects `parent1`'s value. -/
def Brain.crossover (coinW : ℕ → ℕ → ℕ → Bool) (coinB : ℕ → ℕ → Bool)
    (parent1 parent2 : Brain) (config : BrainConfig) : Except String Brain :=
  if ¬Brain.areCompatible parent1 parent2 then
    Except.error "Parent brains are not compatible for crossover"
  else
    let newWeights := parent1.network.weights.mapIdx fun li layer =>
      layer.mapIdx fun ni neuron =>
        neuron.mapIdx fun wi w =>
          if coinW li ni wi then w else tensorGet parent2.network.weights li ni wi
    let newBiases := parent1.network.biases.mapIdx fun li layer =>
      layer.mapIdx fun ni b =>
        if coinB li ni then b else matrixGet parent2.network.biases li ni
    Except.ok ⟨config, ⟨newWeights, newBiases⟩⟩

/-- `Brain.mutate` (Brain.ts lines 178-229).  `rW li ni wi` and `pW li ni wi`
stand for the two `Math.random()` draws of a weight's mutation branch (the
first decides `< mutationRate`, the second builds the perturbation
`(draw - 0.5) * mutationStrength`); `rB`/`pB` likewise for biases. -/
def Brain.mutate (rW pW : ℕ → ℕ → ℕ → ℚ) (rB pB : ℕ → ℕ → ℚ) (b : Brain) : Brain :=
  let newWeights := b.network.weights.mapIdx fun li layer =>
    layer.mapIdx fun ni neuron =>
      neuron.mapIdx fun wi w =>
        if rW li ni wi < b.config.mutationRate then
          clampWeight (w + (pW li ni wi - 0.5) * b.config.mutationStrength)
        else w
  let newBiases := b.network.biases.mapIdx fun li layer =>
    layer.mapIdx fun ni bias =>
      if rB li ni < b.config.mutationRate then
        clampWeight (bias + (pB li ni - 0.5) * b.config.mutationStrength)
      else bias
  ⟨b.config, ⟨newWeights, newBiases⟩⟩

/-! ## Genome (the Genome module, src/unnamed/part_003) -/

/-- Genome metadata (`GenomeData.metadata`). -/
structure GenomeMetadata where
  version : String
  createdAt : ℤ
  parentIds : Option (List String)
  generation : Option ℕ
deriving Repr, DecidableEq

/-- `GenomeData`/`Genome`: flat gene vector plus the brain configuration it
decodes with. -/
structure Genome where
  genes : List ℚ
  config : BrainConfig
  metadata : Option GenomeMetadata
deriving Repr, DecidableEq

/-- `Genome.encodeNetwork` (part_003 lines 52-72): all weights layer by layer,
then all biases layer by layer, flattened into one vector. -/
def encodeNetwork (network : NeuralNetwork) : List ℚ :=
  network.weights.flatten.flatten ++ network.biases.flatten

/-- JS `config.hiddenSize || 12`: both `undefined` and `0` fall back to 12. -/
def hiddenSizeOrDefault (h : Option ℕ) : ℕ :=
  match h with
  | none => 12
  | some n => if n = 0 then 12 else n

/-- The full layer-size list `[inputSize, ...hiddenLayers, outputSize]` with
the legacy single-`hiddenSize` fallback (used by `decodeNetwork` and
`calculateExpectedLength`). -/
def allLayerSizes (config : BrainConfig) : List ℕ :=
  match config.hiddenLayers with
  | some hs => config.inputSize :: hs ++ [config.outputSize]
  | none => [config.inputSize, hiddenSizeOrDefault config.hiddenSize, config.outputSize]

/-- Consecutive layer-size pairs, one per weight-matrix transition. -/
def layerPairs (sizes : List ℕ) : List (ℕ × ℕ) := sizes.zip sizes.tail

/-- Read `rowCount` rows of `rowLen` genes each, returning the rows and the
remaining genes (the `geneIndex` cursor of `decodeNetwork`, made explicit). -/
def readRows : ℕ → ℕ → List ℚ → List (List ℚ) × List ℚ
  | 0, _, genes => ([], genes)
  | n + 1, rowLen, genes =>
      let row := genes.take rowLen
      let rec_result := readRows n rowLen (genes.drop rowLen)
      (row :: rec_result.1, rec_result.2)

/-- Weight-decoding loop of `decodeNetwork` (part_003 lines 87-102): one
`nextLayerSize × currentLayerSize` matrix per layer transition. -/
def decodeWeights : List (ℕ × ℕ) → List ℚ → List (List (List ℚ)) × List ℚ
  | [], genes => ([], genes)
  | (cur, next) :: rest, genes =>
      let layer := readRows next cur genes
      let rec_result := decodeWeights rest layer.2
      (layer.1 :: rec_result.1, rec_result.2)

/-- Bias-decoding loop of `decodeNetwork` (part_003 lines 105-114): one bias
vector per non-input layer. -/
def decodeBiases : List ℕ → List ℚ → List (List ℚ) × List ℚ
  | [], genes => ([], genes)
  | size :: rest, genes =>
      let layer := genes.take size
      let rec_result := decodeBiases rest (genes.drop size)
      (layer :: rec_result.1, rec_result.2)

/-- `Genome.decodeNetwork` (part_003 lines 77-121). -/
def decodeNetwork (genes : List ℚ) (config : BrainConfig) : NeuralNetwork :=
  let layerSizes := allLayerSizes config
  let weights := decodeWeights (layerPairs layerSizes) genes
  let biases := decodeBiases layerSizes.tail weights.2
  ⟨weights.1, biases.1⟩

/-- `Genome.fromBrain` (part_003 lines 24-39); the source merges metadata
defaults field by field, which no claim depends on. -/
def Genome.fromBrain (brain : Brain) (metadata : GenomeMetadata) : Genome :=
  ⟨encodeNetwork brain.network, brain.config, some metadata⟩

/-- `Genome.toBrain` (part_003 lines 44-47). -/
def Genome.toBrain (g : Genome) : Brain :=
  ⟨g.config, decodeNetwork g.genes g.config⟩

/-- `Genome.areCompatible` (part_003 lines 195-223), including the legacy
`hiddenSize` comparison fallback when either hidden-layer list is absent. -/
def Genome.areCompatible (genome1 genome2 : Genome) : Bool :=
  let c1 := genome1.config
  let c2 := genome2.config
  if c1.inputSize ≠ c2.inputSize ∨ c1.outputSize ≠ c2.outputSize then false
  else
    match c1.hiddenLayers, c2.hiddenLayers with
    | some h1, some h2 => h1 == h2
    | _, _ => c1.hiddenSize == c2.hiddenSize

/-- `Genome.crossover` (part_003 lines 134-164).  The per-gene coin flips are
the stream `coins` (`true` selects `parent1`); the source also computes an
unused single-point `crossoverPoint`, which has no effect and is omitted. -/
def Genome.crossover (coins : ℕ → Bool) (parent1 parent2 : Genome)
    (metadata : GenomeMetadata) : Except String Genome :=
  if ¬Genome.areCompatible parent1 parent2 then
    Except.error "Genomes are not compatible for crossover"
  else
    let genes1 := parent1.genes
    let genes2 := parent2.genes
    let newGenes := (List.range genes1.length).map fun i =>
      if coins i then genes1.getD i 0 else genes2.getD i 0
    Except.ok ⟨newGenes, parent1.config, some metadata⟩

/-- `Genome.mutate` (part_003 lines 169-190).  `r i` is the draw deciding
`< mutationRate` for gene `i`; `p i` the draw building the perturbation. -/
def Genome.mutate (r p : ℕ → ℚ) (mutationRate mutationStrength : ℚ) (g : Genome)
    (metadata : GenomeMetadata) : Genome :=
  let newGenes := g.genes.mapIdx fun i gene =>
    if r i < mutationRate then
      clampWeight (gene + (p i - 0.5) * mutationStrength)
    else gene
  ⟨newGenes, g.config, some metadata⟩

/-- `Genome.calculateExpectedLength` (part_003 lines 308-330). -/
def Genome.calculateExpectedLength (config : BrainConfig) : ℕ :=
  let layerSizes := allLayerSizes config
  ((layerPairs layerSizes).map fun pr => pr.1 * pr.2).sum + layerSizes.tail.sum

/-- `Genome.validate` (part_003 lines 335-352): the length check; the
source's additional `isFinite` scan is identically true over `ℚ`. -/
def Genome.validate (g : Genome) : Bool :=
  g.genes.length == Genome.calculateExpectedLength g.config

/-! ## CreatureEntity (src/types/Creature.ts) -/

/-- A fired shot (`Projectile` in Creature.ts). -/
structure Projectile where
  id : String
  position : Vector2D
  velocity : Vector2D
  ownerId : String
  damage : ℚ
  lifetime : ℕ
  maxLifetime : ℕ
deriving Repr, DecidableEq

/-- The fitness configuration record threaded through `run`/`updateFitness`. -/
structure FitnessConfig where
  killReward : ℚ
  forwardMovementReward : ℚ
  survivalReward : ℚ
  collisionPenalty : ℚ
  efficiencyPenalty : ℚ
deriving Repr, DecidableEq

/-- The fallback fitness configuration of `updateFitness`
(Creature.ts lines 307-313). -/
def defaultFitnessConfig : FitnessConfig :=
  ⟨50.0, 1.0, 1.0, 0.1, 0.0⟩

/-- The mutable state of one `CreatureEntity` (Creature.ts lines 36-99).
The private `visionSystem` field is always `createDefaultVisionSystem()`;
`run` below uses that configuration directly. -/
structure CreatureEntity where
  id : String
  name : String
  generation : ℕ
  birthTime : ℤ
  parentIds : Option (List String)
  position : Vector2D
  velocity : Vector2D
  rotation : ℚ
  size : ℚ
  fitness : ℚ
  energy : ℚ
  age : ℕ
  isAlive : Bool
  birthFrame : ℚ
  brain : Brain
  arena : String
  isPinned : Bool
  isSaved : Bool
  lastVisionData : Option VisionData
  shootCooldown : ℤ
deriving Repr, DecidableEq

/-- `SHOOT_COOLDOWN_MAX` (Creature.ts line 71). -/
def SHOOT_COOLDOWN_MAX : ℤ := 30

/-- `PROJECTILE_SPEED` (Creature.ts line 72). -/
def PROJECTILE_SPEED : ℚ := 5

/-- `PROJECTILE_DAMAGE` (Creature.ts line 73). -/
def PROJECTILE_DAMAGE : ℚ := 500

/-- `SHOOT_ENERGY_COST` (Creature.ts line 74). -/
def SHOOT_ENERGY_COST : ℚ := 15

/-- `CreatureEntity.canShoot` (Creature.ts lines 163-165). -/
def CreatureEntity.canShoot (c : CreatureEntity) : Bool :=
  c.isAlive && c.shootCooldown ≤ 0 && c.energy ≥ SHOOT_ENERGY_COST

/-- `CreatureEntity.createProjectile` (Creature.ts lines 170-196): `none`
unless `canShoot()`; otherwise resets the cooldown, deducts the shoot cost and
returns the spawned projectile together with the updated creature.
`projectileId` stands for the `projectile-...-Date.now()` string. -/
def CreatureEntity.createProjectile (cosF sinF : ℚ → ℚ) (projectileId : String)
    (c : CreatureEntity) : Option (Projectile × CreatureEntity) :=
  if ¬c.canShoot then none
  else
    let c' := { c with shootCooldown := SHOOT_COOLDOWN_MAX,
                       energy := c.energy - SHOOT_ENERGY_COST }
    let offsetDistance := c.size * 0.7
    let startX := c.position.x + cosF c.rotation * offsetDistance
    let startY := c.position.y + sinF c.rotation * offsetDistance
    let velocityX := cosF c.rotation * PROJECTILE_SPEED
    let velocityY := sinF c.rotation * PROJECTILE_SPEED
    some (⟨projectileId, ⟨startX, startY⟩, ⟨velocityX, velocityY⟩, c.id,
           PROJECTILE_DAMAGE, 0, 120⟩, c')

/-- `CreatureEntity.takeDamage` (Creature.ts lines 333-342): subtract the
damage; flip to dead and report `died = true` when this brings a living
creature to energy ≤ 0. -/
def CreatureEntity.takeDamage (damage : ℚ) (c : CreatureEntity) :
    CreatureEntity × Bool :=
  let c1 := { c with energy := c.energy - damage }
  if c1.energy ≤ 0 ∧ c1.isAlive then ({ c1 with isAlive := false }, true)
  else (c1, false)

/-- `CreatureEntity.restoreFullHealth` (Creature.ts lines 347-349). -/
def CreatureEntity.restoreFullHealth (c : CreatureEntity) : CreatureEntity :=
  { c with energy := 1000 }

/-- `CreatureEntity.getBoundingRect` (Creature.ts lines 354-361). -/
def CreatureEntity.getBoundingRect (c : CreatureEntity) : Rectangle :=
  ⟨c.position.x - c.size / 2, c.position.y - c.size / 2, c.size, c.size⟩

/-- Arithmetic mean of a list (the `reduce((sum,d) => sum+d, 0) / length`
idiom used for the vision-quality input). -/
def meanList (l : List ℚ) : ℚ := l.sum / (l.length : ℚ)

/-- `CreatureEntity.updateFitness` (Creature.ts lines 299-328). -/
def CreatureEntity.updateFitness (forwardSpeed collisions : ℚ)
    (fitnessConfig : Option FitnessConfig) (currentFrame : ℚ)
    (c : CreatureEntity) : CreatureEntity :=
  let config := fitnessConfig.getD defaultFitnessConfig
  let survivalTime := currentFrame - c.birthFrame
  let f1 := survivalTime * config.survivalReward
  let f2 := f1 + forwardSpeed * config.forwardMovementReward
  let cappedCollisions := min collisions 2
  let f3 := f2 - cappedCollisions * config.collisionPenalty
  { c with fitness := max f3 0 }

/-- The vision sample taken at the top of `run` (Creature.ts line 226), using
the creature's default vision system. -/
def CreatureEntity.runVisionData (fovAngle : ℚ) (cosF sinF : ℚ → ℚ)
    (obstacles otherCreatures : List Rectangle) (c : CreatureEntity) : VisionData :=
  castVision (createDefaultVisionSystem fovAngle) cosF sinF c.position c.rotation
    obstacles otherCreatures

/-- The 14-element input vector of `run` (Creature.ts lines 229-240). -/
def CreatureEntity.runInputs (visionData : VisionData) (c : CreatureEntity) : List ℚ :=
  visionData.distances ++
    [c.energy / 1000,
     min (|c.velocity.x| / 2.0) 1,
     min (|c.velocity.y| / 2.0) 1,
     meanList visionData.distances]

/-- `CreatureEntity.run` (Creature.ts lines 216-293), with `cos`/`sin` and the
network activation passed as `cosF`/`sinF`/`σ`.  Returns the updated creature
together with the `shouldShoot` flag; the input-size exception of
`Brain.process` propagates as `Except.error`. -/
def CreatureEntity.run (fovAngle : ℚ) (cosF sinF σ : ℚ → ℚ)
    (obstacles otherCreatures : List Rectangle)
    (fitnessConfig : Option FitnessConfig) (currentFrame : ℚ)
    (c : CreatureEntity) : Except String (CreatureEntity × Bool) :=
  if c.isAlive = false then Except.ok (c, false)
  else
    let visionData := c.runVisionData fovAngle cosF sinF obstacles otherCreatures
    let inputs := c.runInputs visionData
    (Brain.process σ c.brain inputs).map fun outputs =>
      let leftTurn := outputs.getD 0 0
      let rightTurn := outputs.getD 1 0
      let forwardSpeed := max 0 (outputs.getD 2 0)
      let shootDecision := outputs.getD 3 0
      let turnSpeed : ℚ := 0.1
      let rotation' := c.rotation + (rightTurn - leftTurn) * turnSpeed
      let maxSpeed : ℚ := 2.0
      let targetVelX := cosF rotation' * forwardSpeed * maxSpeed
      let targetVelY := sinF rotation' * forwardSpeed * maxSpeed
      let inertia : ℚ := 0.8
      let velX := c.velocity.x * inertia + targetVelX * (1 - inertia)
      let velY := c.velocity.y * inertia + targetVelY * (1 - inertia)
      let posX := c.position.x + velX
      let posY := c.position.y + velY
      let energy' := c.energy - (0.5 + |forwardSpeed| * 0.3)
      let shootCooldown' := if c.shootCooldown > 0 then c.shootCooldown - 1
                            else c.shootCooldown
      let isAlive' := if energy' ≤ 0 then false else c.isAlive
      let c1 : CreatureEntity :=
        { c with lastVisionData := some visionData,
                 rotation := rotation',
                 velocity := ⟨velX, velY⟩,
                 position := ⟨posX, posY⟩,
                 age := c.age + 1,
                 energy := energy',
                 shootCooldown := shootCooldown',
                 isAlive := isAlive' }
      let visionQuality := meanList visionData.distances
      let obstacleProximity := 1 - visionQuality
      let c2 := c1.updateFitness forwardSpeed (obstacleProximity * 2)
                  fitnessConfig currentFrame
      let shouldShoot := shootDecision > 0.5 && c2.canShoot
      (c2, shouldShoot)

/-- `CreatureEntity.getGenome` (Creature.ts lines 402-409); `now` stands for
`Date.now()`. -/
def CreatureEntity.getGenome (now : ℤ) (c : CreatureEntity) : Genome :=
  Genome.fromBrain c.brain ⟨"1.0", now, c.parentIds, some c.generation⟩

/-- The fixed `BrainConfig` of `initializeBrain` (Creature.ts lines 106-112). -/
def standardBrainConfig : BrainConfig :=
  ⟨14, some [120, 80], 4, 0.02, 0.1, none⟩

/-- `CreatureEntity.initializeBrain` (Creature.ts lines 105-147): decode a
valid, configuration-compatible genome, otherwise fall back to a fresh random
brain, whose randomly drawn network is the parameter `freshNetwork`. -/
def initializeBrain (freshNetwork : NeuralNetwork) (genome : Option Genome) : Brain :=
  let config := standardBrainConfig
  match genome with
  | none => ⟨config, freshNetwork⟩
  | some g =>
      if ¬g.validate then ⟨config, freshNetwork⟩
      else if g.config.inputSize ≠ config.inputSize ∨
              g.config.outputSize ≠ config.outputSize then ⟨config, freshNetwork⟩
      else
        match g.config.hiddenLayers, config.hiddenLayers with
        | some h1, some h2 => if h1 = h2 then g.toBrain else ⟨config, freshNetwork⟩
        | _, _ => ⟨config, freshNetwork⟩

/-- The `CreatureEntity` constructor (Creature.ts lines 76-99).  The random
initial rotation `Math.random() * 2π` is abstracted as the parameter
`rotation`; `freshNetwork` is the constructor's random-network draw and `now`
is `Date.now()`. -/
def mkCreatureEntity (id name : String) (position : Vector2D) (generation : ℕ)
    (arena : String) (genome : Option Genome) (rotation : ℚ)
    (freshNetwork : NeuralNetwork) (now : ℤ) : CreatureEntity :=
  { id := id
    name := name
    generation := generation
    birthTime := now
    parentIds := none
    position := position
    velocity := ⟨0, 0⟩
    rotation := rotation
    size := 24
    fitness := 0
    energy := 1000
    age := 0
    isAlive := true
    birthFrame := 0
    brain := initializeBrain freshNetwork genome
    arena := arena
    isPinned := false
    isSaved := false
    lastVisionData := none
    shootCooldown := 0 }

/-- `CreatureEntity.clone` (Creature.ts lines 428-441): re-encode the brain as
a genome, build a fresh creature from it, and copy the pinned/saved flags. -/
def CreatureEntity.clone (newId newName : String) (newPosition : Vector2D)
    (rotation : ℚ) (freshNetwork : NeuralNetwork) (now : ℤ)
    (c : CreatureEntity) : CreatureEntity :=
  let genome := c.getGenome now
  let cl := mkCreatureEntity newId newName newPosition c.generation c.arena
    (some genome) rotation freshNetwork now
  { cl with isPinned := c.isPinned, isSaved := c.isSaved }

/-! ## Arena (src/types/Arena.ts) -/

/-- `ArenaWall`: a rectangle tagged with id, kind and presentation fields. -/
structure ArenaWall extends Rectangle where
  id : String
  type : String
  color : Option ℕ
  opacity : Option ℚ
deriving Repr, DecidableEq

/-- `ArenaLayout`. -/
structure ArenaLayout where
  id : String
  name : String
  color : String
  description : String
  walls : List ArenaWall
  spawnZones : List Rectangle
deriving Repr, DecidableEq

/-- Helper for transcribing the `ARENA_LAYOUTS` wall tables. -/
def mkWall (x y width height : ℚ) (id type : String) (color : ℕ) : ArenaWall :=
  ⟨⟨x, y, width, height⟩, id, type, some color, none⟩

/-- The `main` entry of `ARENA_LAYOUTS` (Arena.ts lines 25-46), at the base
800×600 dimensions. -/
def mainLayout : ArenaLayout :=
  { id := "main", name := "Main Arena", color := "#22c55e"
    description := "Open arena with minimal obstacles"
    walls :=
      [ mkWall 0 0 800 20 "top-border" "wall" 0x4a5568
      , mkWall 0 580 800 20 "bottom-border" "wall" 0x4a5568
      , mkWall 0 0 20 600 "left-border" "wall" 0x4a5568
      , mkWall 780 0 20 600 "right-border" "wall" 0x4a5568
      , mkWall 370 270 60 60 "center-pillar" "obstacle" 0x718096 ]
    spawnZones :=
      [ ⟨50, 50, 150, 150⟩, ⟨600, 50, 150, 150⟩
      , ⟨50, 400, 150, 150⟩, ⟨600, 400, 150, 150⟩ ] }

/-- The `forest` entry of `ARENA_LAYOUTS` (Arena.ts lines 48-81). -/
def forestLayout : ArenaLayout :=
  { id := "forest", name := "Forest", color := "#16a34a"
    description := "Dense with tree-like obstacles"
    walls :=
      [ mkWall 0 0 800 20 "top-border" "wall" 0x365314
      , mkWall 0 580 800 20 "bottom-border" "wall" 0x365314
      , mkWall 0 0 20 600 "left-border" "wall" 0x365314
      , mkWall 780 0 20 600 "right-border" "wall" 0x365314
      , mkWall 150 120 40 40 "tree-1" "obstacle" 0x22543d
      , mkWall 180 140 35 35 "tree-2" "obstacle" 0x22543d
      , mkWall 350 100 45 45 "tree-3" "obstacle" 0x22543d
      , mkWall 380 130 30 30 "tree-4" "obstacle" 0x22543d
      , mkWall 550 150 50 50 "tree-5" "obstacle" 0x22543d
      , mkWall 200 350 40 40 "tree-6" "obstacle" 0x22543d
      , mkWall 230 380 35 35 "tree-7" "obstacle" 0x22543d
      , mkWall 450 320 45 45 "tree-8" "obstacle" 0x22543d
      , mkWall 480 350 30 30 "tree-9" "obstacle" 0x22543d
      , mkWall 600 400 40 40 "tree-10" "obstacle" 0x22543d
      , mkWall 300 250 200 25 "fallen-log" "barrier" 0x451a03 ]
    spawnZones :=
      [ ⟨30, 30, 100, 100⟩, ⟨670, 30, 100, 100⟩
      , ⟨30, 470, 100, 100⟩, ⟨670, 470, 100, 100⟩ ] }

/-- The `desert` entry of `ARENA_LAYOUTS` (Arena.ts lines 83-115). -/
def desertLayout : ArenaLayout :=
  { id := "desert", name := "Desert", color := "#eab308"
    description := "Rocky outcrops and sand dunes"
    walls :=
      [ mkWall 0 0 800 20 "top-border" "wall" 0x92400e
      , mkWall 0 580 800 20 "bottom-border" "wall" 0x92400e
      , mkWall 0 0 20 600 "left-border" "wall" 0x92400e
      , mkWall 780 0 20 600 "right-border" "wall" 0x92400e
      , mkWall 100 150 120 80 "rock-formation-1" "obstacle" 0xa16207
      , mkWall 500 200 150 100 "rock-formation-2" "obstacle" 0xa16207
      , mkWall 300 400 100 120 "rock-formation-3" "obstacle" 0xa16207
      , mkWall 250 100 30 25 "small-rock-1" "obstacle" 0xd97706
      , mkWall 650 150 35 30 "small-rock-2" "obstacle" 0xd97706
      , mkWall 150 450 25 30 "small-rock-3" "obstacle" 0xd97706
      , mkWall 550 500 40 25 "small-rock-4" "obstacle" 0xd97706
      , mkWall 350 50 30 200 "canyon-wall" "barrier" 0x78350f ]
    spawnZones :=
      [ ⟨30, 30, 120, 80⟩, ⟨650, 30, 120, 80⟩
      , ⟨30, 490, 120, 80⟩, ⟨650, 490, 120, 80⟩ ] }

/-- The `arctic` entry of `ARENA_LAYOUTS` (Arena.ts lines 117-150). -/
def arcticLayout : ArenaLayout :=
  { id := "arctic", name := "Arctic", color := "#3b82f6"
    description := "Ice blocks and frozen barriers"
    walls :=
      [ mkWall 0 0 800 20 "top-border" "wall" 0x1e3a8a
      , mkWall 0 580 800 20 "bottom-border" "wall" 0x1e3a8a
      , mkWall 0 0 20 600 "left-border" "wall" 0x1e3a8a
      , mkWall 780 0 20 600 "right-border" "wall" 0x1e3a8a
      , mkWall 200 100 60 150 "ice-block-1" "obstacle" 0x3730a3
      , mkWall 400 80 80 60 "ice-block-2" "obstacle" 0x3730a3
      , mkWall 500 250 60 120 "ice-block-3" "obstacle" 0x3730a3
      , mkWall 150 350 120 60 "ice-block-4" "obstacle" 0x3730a3
      , mkWall 350 450 80 80 "ice-block-5" "obstacle" 0x3730a3
      , ⟨⟨300, 200, 150, 100⟩, "frozen-lake", "barrier", some 0x1d4ed8, some 0.7⟩
      , mkWall 100 200 40 15 "icicles-1" "obstacle" 0x60a5fa
      , mkWall 600 350 35 20 "icicles-2" "obstacle" 0x60a5fa
      , mkWall 650 150 30 18 "icicles-3" "obstacle" 0x60a5fa ]
    spawnZones :=
      [ ⟨30, 30, 120, 120⟩, ⟨650, 30, 120, 120⟩
      , ⟨30, 450, 120, 120⟩, ⟨650, 450, 120, 120⟩ ] }

/-- The `aquatic` entry of `ARENA_LAYOUTS` (Arena.ts lines 152-188). -/
def aquaticLayout : ArenaLayout :=
  { id := "aquatic", name := "Aquatic", color := "#06b6d4"
    description := "Coral reefs and underwater structures"
    walls :=
      [ mkWall 0 0 800 20 "top-border" "wall" 0x0c4a6e
      , mkWall 0 580 800 20 "bottom-border" "wall" 0x0c4a6e
      , mkWall 0 0 20 600 "left-border" "wall" 0x0c4a6e
      , mkWall 780 0 20 600 "right-border" "wall" 0x0c4a6e
      , mkWall 120 120 80 100 "coral-reef-1" "obstacle" 0x0891b2
      , mkWall 180 100 60 80 "coral-reef-2" "obstacle" 0x0891b2
      , mkWall 450 150 100 120 "coral-reef-3" "obstacle" 0x0891b2
      , mkWall 520 130 70 90 "coral-reef-4" "obstacle" 0x0891b2
      , mkWall 200 400 90 110 "coral-reef-5" "obstacle" 0x0891b2
      , mkWall 500 420 85 100 "coral-reef-6" "obstacle" 0x0891b2
      , mkWall 350 50 20 180 "cave-wall-1" "barrier" 0x155e75
      , mkWall 450 350 20 200 "cave-wall-2" "barrier" 0x155e75
      , mkWall 100 350 25 40 "seaweed-1" "obstacle" 0x22d3ee
      , mkWall 650 200 30 45 "seaweed-2" "obstacle" 0x22d3ee
      , mkWall 300 500 20 35 "seaweed-3" "obstacle" 0x22d3ee
      , mkWall 600 480 28 42 "seaweed-4" "obstacle" 0x22d3ee ]
    spawnZones :=
      [ ⟨30, 30, 80, 80⟩, ⟨690, 30, 80, 80⟩
      , ⟨30, 490, 80, 80⟩, ⟨690, 490, 80, 80⟩ ] }

/-- `ARENA_LAYOUTS` lookup (Arena.ts lines 24-189). -/
def arenaLayoutsLookup (arenaId : String) : Option ArenaLayout :=
  if arenaId = "main" then some mainLayout
  else if arenaId = "forest" then some forestLayout
  else if arenaId = "desert" then some desertLayout
  else if arenaId = "arctic" then some arcticLayout
  else if arenaId = "aquatic" then some aquaticLayout
  else none

/-- `scaleArenaLayout` (Arena.ts lines 198-221): scale every wall and spawn
zone from the base 800×600 dimensions to the target canvas dimensions. -/
def scaleArenaLayout (layout : ArenaLayout) (targetWidth targetHeight : ℚ) : ArenaLayout :=
  let scaleX := targetWidth / 800
  let scaleY := targetHeight / 600
  { layout with
    walls := layout.walls.map fun wall =>
      { wall with x := wall.x * scaleX, y := wall.y * scaleY,
                  width := wall.width * scaleX, height := wall.height * scaleY }
    spawnZones := layout.spawnZones.map fun zone =>
      ⟨zone.x * scaleX, zone.y * scaleY, zone.width * scaleX, zone.height * scaleY⟩ }

/-- `getArenaLayout` (Arena.ts lines 191-196): table lookup with fallback to
`main`, then scaling. -/
def getArenaLayout (arenaId : String) (width height : ℚ) : ArenaLayout :=
  scaleArenaLayout ((arenaLayoutsLookup arenaId).getD mainLayout) width height

/-- AABB overlap test as written in the spawn-position wall check
(Arena.ts lines 252-257) and in `checkCreatureWallCollision`. -/
def rectsOverlap (a : Rectangle) (b : Rectangle) : Bool :=
  a.x < b.x + b.width && a.x + a.width > b.x &&
  a.y < b.y + b.height && a.y + a.height > b.y

/-- The 24×24 creature bounding box centred at a candidate spawn point
(Arena.ts lines 245-250). -/
def creatureBoundsAt (p : Vector2D) : Rectangle :=
  ⟨p.x - 12, p.y - 12, 24, 24⟩

/-- Wall-overlap check of a candidate spawn position (Arena.ts lines 252-257). -/
def spawnWallCollision (p : Vector2D) (walls : List ArenaWall) : Bool :=
  walls.any fun wall => rectsOverlap (creatureBoundsAt p) wall.toRectangle

/-- Proximity check of a candidate spawn position (Arena.ts lines 260-266).
The source compares `sqrt(dx²+dy²) < 36`; both sides being non-negative this
is the squared comparison used here. -/
def spawnTooClose (p : Vector2D) (existingPositions : List Vector2D) : Bool :=
  existingPositions.any fun pos =>
    (p.x - pos.x) * (p.x - pos.x) + (p.y - pos.y) * (p.y - pos.y) < 36 * 36

/-- The candidate position of one spawn attempt (Arena.ts lines 241-242):
`padding + Math.random() * (dimension - 2*padding)` per axis, with
`padding = creatureSize/2 + 5 = 17`. -/
def spawnCandidate (width height : ℚ) (rnd : ℕ → ℚ × ℚ) (attempt : ℕ) : Vector2D :=
  ⟨(12 + 5) + (rnd attempt).1 * (width - 2 * (12 + 5)),
   (12 + 5) + (rnd attempt).2 * (height - 2 * (12 + 5))⟩

/-- The retry loop of `getRandomSpawnPosition` (Arena.ts lines 239-275),
counting down the remaining attempts (`maxAttempts = 100`); `rnd attempt`
supplies the two `Math.random()` draws of that attempt.  When the attempts run
out the source falls back to the arena centre. -/
def spawnLoop (walls : List ArenaWall) (width height : ℚ)
    (existingPositions : List Vector2D) (rnd : ℕ → ℚ × ℚ) :
    ℕ → ℕ → Vector2D
  | _, 0 => ⟨width / 2, height / 2⟩
  | attempt, fuel + 1 =>
      let p := spawnCandidate width height rnd attempt
      if ¬spawnWallCollision p walls ∧ ¬spawnTooClose p existingPositions then
        p
      else
        spawnLoop walls width height existingPositions rnd (attempt + 1) fuel

/-- `getRandomSpawnPosition` (Arena.ts lines 231-276). -/
def getRandomSpawnPosition (arenaId : String) (width height : ℚ)
    (existingPositions : List Vector2D) (rnd : ℕ → ℚ × ℚ) : Vector2D :=
  spawnLoop (getArenaLayout arenaId width height).walls width height
    existingPositions rnd 0 100

/-! ## Population initialisation (src/hooks/useCreatureNames.ts) -/

/-- The random/ambient inputs of `createInitialPopulation`: per population
slot, the spawn-attempt draws, the constructor's rotation draw and random
network; per fresh-creature index, the generated id and name; and the
`Date.now()` timestamp. -/
structure SpawnCtx where
  spawnRnd : ℕ → ℕ → ℚ × ℚ
  rotRnd : ℕ → ℚ
  freshNetwork : ℕ → NeuralNetwork
  freshId : ℕ → String
  freshName : ℕ → String
  now : ℤ

/-- The pinned/saved cloning loops of `createInitialPopulation`
(useCreatureNames.ts lines 69-95): spawn a position (extending
`existingPositions`), clone with id `"<id>-gen<generation>"`, and reset
generation and fitness.  Returns the clones, the extended position list and
the next slot index. -/
def clonePass (ctx : SpawnCtx) (arena : String) (width height : ℚ) (gen : ℕ) :
    List CreatureEntity → ℕ → List Vector2D →
    List CreatureEntity × List Vector2D × ℕ
  | [], slot, existing => ([], existing, slot)
  | c :: rest, slot, existing =>
      let spawnPos := getRandomSpawnPosition arena width height existing
        (ctx.spawnRnd slot)
      let cl := c.clone (c.id ++ "-gen" ++ toString gen) c.name spawnPos
        (ctx.rotRnd slot) (ctx.freshNetwork slot) ctx.now
      let cl' := { cl with generation := gen, fitness := 0 }
      let rest' := clonePass ctx arena width height gen rest (slot + 1)
        (existing ++ [spawnPos])
      (cl' :: rest'.1, rest'.2.1, rest'.2.2)

/-- The fill loop of `createInitialPopulation` (useCreatureNames.ts lines
98-108): construct `count` fresh random creatures, threading the position
list. -/
def freshPass (ctx : SpawnCtx) (arena : String) (width height : ℚ) (gen : ℕ) :
    ℕ → ℕ → ℕ → List Vector2D → List CreatureEntity
  | 0, _, _, _ => []
  | count + 1, i, slot, existing =>
      let pos := getRandomSpawnPosition arena width height existing
        (ctx.spawnRnd slot)
      let c := mkCreatureEntity (ctx.freshId i) (ctx.freshName i) pos gen arena
        none (ctx.rotRnd slot) (ctx.freshNetwork slot) ctx.now
      c :: freshPass ctx arena width height gen count (i + 1) (slot + 1)
        (existing ++ [pos])

/-- `createInitialPopulation` (useCreatureNames.ts lines 63-111): clone the
pinned creatures of the target arena, then the saved-and-not-pinned
creatures, then fill the remaining slots up to 50 with fresh random
creatures.  `remainingSlots = 50 - population.length` is the JS loop bound,
which runs zero times when the clones already exceed 50 — i.e. truncated
subtraction. -/
def createInitialPopulation (creatures : List CreatureEntity)
    (currentGeneration : ℕ) (ctx : SpawnCtx) (arena : String)
    (width height : ℚ) : List CreatureEntity :=
  let pinnedCreatures := creatures.filter fun c => c.isPinned && c.arena == arena
  let savedCreatures := creatures.filter fun c => c.isSaved && !c.isPinned
  let p1 := clonePass ctx arena width height currentGeneration pinnedCreatures 0 []
  let p2 := clonePass ctx arena width height currentGeneration savedCreatures
    p1.2.2 p1.2.1
  let population := p1.1 ++ p2.1
  let remainingSlots := 50 - population.length
  population ++ freshPass ctx arena width height currentGeneration
    remainingSlots 0 p2.2.2 p2.2.1

/-! ## Generation-end detection (simulationTicker, src/unnamed/part_001) -/

/-- The ticker state relevant to generation-end detection:
`generationEndedRef` and `creaturesRef`. -/
structure TickerState where
  generationEnded : Bool
  creatures : List CreatureEntity
deriving Repr, DecidableEq

/-- `finalUpdatedCreatures.filter(c => c.isAlive)` (part_001 line 595). -/
def aliveOf (l : List CreatureEntity) : List CreatureEntity :=
  l.filter fun c => c.isAlive

/-- `[...finalUpdatedCreatures].sort((a,b) => b.fitness - a.fitness).slice(0,10)`
(part_001 lines 600-602).  The JS engine's comparator sort is modelled by
insertion sort with the same descending-fitness order. -/
def topPerformers (l : List CreatureEntity) : List CreatureEntity :=
  (List.insertionSort (fun a b => b.fitness ≤ a.fitness) l).take 10

instance fitnessDescTotal :
    IsTotal CreatureEntity (fun a b => b.fitness ≤ a.fitness) :=
  ⟨fun a b => le_total b.fitness a.fitness⟩

instance fitnessDescTrans :
    IsTrans CreatureEntity (fun a b => b.fitness ≤ a.fitness) :=
  ⟨fun _ _ _ hab hbc => le_trans hbc hab⟩

/-- The generation-end check run once per ticker callback, outside the speed
loop (part_001 lines 593-606): when the flag is clear, the population is
non-empty and at most one creature is alive, set the flag and fire the
callback with `(aliveCreatures, topPerformers)`. -/
def checkGenerationEnd (st : TickerState) :
    TickerState × Option (List CreatureEntity × List CreatureEntity) :=
  if ¬st.generationEnded ∧ st.creatures.length > 0 then
    let alive := aliveOf st.creatures
    if alive.length ≤ 1 then
      ({ st with generationEnded := true }, some (alive, topPerformers st.creatures))
    else (st, none)
  else (st, none)

/-- The speed loop of one ticker callback (part_001 lines 417-591): the
per-tick simulation steps, abstracted as creature-list transformations, are
run back to back; only then is the generation-end condition evaluated. -/
def applyTicks (ticks : List (List CreatureEntity → List CreatureEntity))
    (creatures : List CreatureEntity) : List CreatureEntity :=
  ticks.foldl (fun cs t => t cs) creatures

/-- One full ticker callback: run the whole batch of ticks, then perform the
single generation-end check. -/
def runBatch (ticks : List (List CreatureEntity → List CreatureEntity))
    (st : TickerState) :
    TickerState × Option (List CreatureEntity × List CreatureEntity) :=
  checkGenerationEnd { st with creatures := applyTicks ticks st.creatures }

/-- A sequence of ticker callbacks, collecting every fired
generation-end event. -/
def runFrames : List (List (List CreatureEntity → List CreatureEntity)) →
    TickerState → TickerState × List (List CreatureEntity × List CreatureEntity)
  | [], st => (st, [])
  | batch :: rest, st =>
      let r := runBatch batch st
      let r2 := runFrames rest r.1
      (r2.1, r.2.toList ++ r2.2)

/-- Installing a new population resets the generation-ended flag
(the `useEffect` on `creatures`, part_001 lines 311-317). -/
def installPopulation (pop : List CreatureEntity) (_st : TickerState) : TickerState :=
  ⟨false, pop⟩

/-- The shooter fitness bonus applied by the projectile-hit handler of the
ticker (part_001 lines 544-553): `shooter.fitness += fitnessConfig.killReward`. -/
def applyKillReward (killReward : ℚ) (shooter : CreatureEntity) : CreatureEntity :=
  { shooter with fitness := shooter.fitness + killReward }

/-! ## Derived quantities named for the statements -/

/-- The forward-speed output `max(0, outputs[2])` of one `run` invocation. -/
def runForwardSpeed (σ : ℚ → ℚ) (visionData : VisionData) (c : CreatureEntity) : ℚ :=
  max 0 ((processNetwork σ c.brain.network (c.runInputs visionData)).getD 2 0)

/-- Claim-side notion for C6: the distance to the nearest rectangle the ray
intersects, capped at `maxDistance` (the minimum of the per-rectangle hit
parameters, starting from `maxDistance`). -/
def nearestHitDistance (maxDistance : ℚ) (origin direction : Vector2D)
    (obstacles : List Rectangle) : ℚ :=
  (obstacles.filterMap (rayRectangleIntersection maxDistance origin direction)).foldl
    min maxDistance

/-- Default `Ray` value used only to state positional access. -/
def defaultRay : Ray := ⟨⟨0, 0⟩, ⟨0, 0⟩, 0, 0, 0⟩

/-- The weight tensor has one `next × cur` matrix per layer transition. -/
def weightsMatch : List (List (List ℚ)) → List (ℕ × ℕ) → Bool
  | [], [] => true
  | layer :: rest, (cur, next) :: trs =>
      layer.length == next && layer.all (fun row => row.length == cur)
        && weightsMatch rest trs
  | _, _ => false

/-- The bias tensor has one vector per non-input layer, of that layer's size. -/
def biasesMatch : List (List ℚ) → List ℕ → Bool
  | [], [] => true
  | layer :: rest, size :: sizes => layer.length == size && biasesMatch rest sizes
  | _, _ => false

/-- A network's tensors match the layer sizes of a configuration. -/
def shapesMatch (net : NeuralNetwork) (config : BrainConfig) : Bool :=
  weightsMatch net.weights (layerPairs (allLayerSizes config)) &&
  biasesMatch net.biases (allLayerSizes config).tail

/-! ## Concrete fixtures for witnesses and counterexamples -/

/-- A brain with the standard creature configuration; the empty tensor lists
make the forward pass the identity, which no statement about shapes relies
on. -/
def testBrain : Brain := ⟨standardBrainConfig, ⟨[], []⟩⟩

/-- A living creature fixture with 100 energy. -/
def testCreature : CreatureEntity :=
  { id := "c1"
    name := "Aether"
    generation := 1
    birthTime := 0
    parentIds := none
    position := ⟨100, 100⟩
    velocity := ⟨0, 0⟩
    rotation := 0
    size := 24
    fitness := 0
    energy := 100
    age := 0
    isAlive := true
    birthFrame := 0
    brain := testBrain
    arena := "main"
    isPinned := false
    isSaved := false
    lastVisionData := none
    shootCooldown := 0 }

/-- A creature that can shoot with exactly the shoot-energy cost left. -/
def testShooter : CreatureEntity := { testCreature with energy := 15 }

/-- A small brain (1 input, one hidden unit, 1 output) with matching tensors,
for concrete round-trip and crossover checks. -/
def testSmallBrain : Brain :=
  ⟨⟨1, some [1], 1, 0.02, 0.1, none⟩, ⟨[[[2]], [[3]]], [[4], [5]]⟩⟩

/-- A second small brain with the same shape but different entries. -/
def testSmallBrain' : Brain :=
  ⟨⟨1, some [1], 1, 0.02, 0.1, none⟩, ⟨[[[6]], [[7]]], [[8], [9]]⟩⟩

/-- Metadata fixture. -/
def testMetadata : GenomeMetadata := ⟨"1.0", 0, none, none⟩

/-- Genome of the small brain fixture. -/
def testGenome : Genome := Genome.fromBrain testSmallBrain testMetadata

/-- Genome of the second small brain fixture. -/
def testGenome' : Genome := Genome.fromBrain testSmallBrain' testMetadata

/-- Ticker-state fixture: flag clear, one living creature. -/
def testTickerState : TickerState := ⟨false, [testCreature]⟩

/-- A pinned creature in the `main` arena. -/
def pinnedCreature : CreatureEntity := { testCreature with isPinned := true }

/-- A saved, not pinned creature. -/
def savedCreature : CreatureEntity := { testCreature with isSaved := true }

/-- A deterministic spawn context for the population fixtures. -/
def testSpawnCtx : SpawnCtx :=
  ⟨fun _ _ => (1/2, 1/2), fun _ => 0, fun _ => ⟨[], []⟩,
   fun _ => "fresh", fun _ => "Nova", 0⟩

/-! ## Supporting lemmas -/

theorem castVision_distances_length (config : VisionConfig) (cosF sinF : ℚ → ℚ)
    (position : Vector2D) (rotation : ℚ) (obstacles otherCreatures : List Rectangle) :
    (castVision config cosF sinF position rotation obstacles otherCreatures).distances.length
      = config.rayCount := by
  simp [castVision]

theorem runInputs_length (visionData : VisionData) (c : CreatureEntity) :
    (c.runInputs visionData).length = visionData.distances.length + 4 := by
  simp [CreatureEntity.runInputs]

theorem updateFitness_isAlive (forwardSpeed collisions : ℚ)
    (cfg : Option FitnessConfig) (frame : ℚ) (c : CreatureEntity) :
    (c.updateFitness forwardSpeed collisions cfg frame).isAlive = c.isAlive := rfl

theorem updateFitness_energy (forwardSpeed collisions : ℚ)
    (cfg : Option FitnessConfig) (frame : ℚ) (c : CreatureEntity) :
    (c.updateFitness forwardSpeed collisions cfg frame).energy = c.energy := rfl

/-- The fitness value written by every `run` of a living creature, as a
function of the tick data (shared by the C2 and C10 claims). -/
theorem run_fitness_eq (fov : ℚ) (cosF sinF σ : ℚ → ℚ)
    (obstacles others : List Rectangle) (cfg : Option FitnessConfig)
    (frame : ℚ) (c : CreatureEntity) (halive : c.isAlive = true)
    (hsize : c.brain.config.inputSize = 14) :
    (c.run fov cosF sinF σ obstacles others cfg frame).map (fun r => r.1.fitness)
      = Except.ok (max 0
          ((frame - c.birthFrame) * (cfg.getD defaultFitnessConfig).survivalReward
            + runForwardSpeed σ (c.runVisionData fov cosF sinF obstacles others) c
                * (cfg.getD defaultFitnessConfig).forwardMovementReward
            - min (2 * (1 - meanList
                  (c.runVisionData fov cosF sinF obstacles others).distances)) 2
                * (cfg.getD defaultFitnessConfig).collisionPenalty)) := by
  have hlen : (c.runInputs (c.runVisionData fov cosF sinF obstacles others)).length
      = c.brain.config.inputSize := by
    rw [runInputs_length, hsize, CreatureEntity.runVisionData,
      castVision_distances_length]
    rfl
  have hproc : Brain.process σ c.brain
      (c.runInputs (c.runVisionData fov cosF sinF obstacles others))
      = Except.ok (processNetwork σ c.brain.network
          (c.runInputs (c.runVisionData fov cosF sinF obstacles others))) := by
    simp [Brain.process, hlen]
  simp only [CreatureEntity.run, halive, Bool.true_eq_false, if_false, hproc,
    Except.map]
  simp only [CreatureEntity.updateFitness, runForwardSpeed]
  rw [max_comm]
  ring_nf

/-- C2: after every `run()` of a living agent, the fitness equals
`max(0, survivalTime·survivalReward + forwardSpeed·forwardMovementReward −
min(2·(1−meanVisionDistance), 2)·collisionPenalty)`, and every
`updateFitness` leaves a non-negative fitness. -/
theorem run_fitness_formula (fov : ℚ) (cosF sinF σ : ℚ → ℚ)
    (obstacles others : List Rectangle) (cfg : Option FitnessConfig)
    (frame : ℚ) (c : CreatureEntity) (halive : c.isAlive = true)
    (hsize : c.brain.config.inputSize = 14) :
    ((c.run fov cosF sinF σ obstacles others cfg frame).map (fun r => r.1.fitness)
      = Except.ok (max 0
          ((frame - c.birthFrame) * (cfg.getD defaultFitnessConfig).survivalReward
            + runForwardSpeed σ (c.runVisionData fov cosF sinF obstacles others) c
                * (cfg.getD defaultFitnessConfig).forwardMovementReward
            - min (2 * (1 - meanList
                  (c.runVisionData fov cosF sinF obstacles others).distances)) 2
                * (cfg.getD defaultFitnessConfig).collisionPenalty)))
    ∧ (∀ (forwardSpeed collisions : ℚ) (cfg' : Option FitnessConfig) (frame' : ℚ)
        (c' : CreatureEntity),
        0 ≤ (c'.updateFitness forwardSpeed collisions cfg' frame').fitness) := by
  refine ⟨run_fitness_eq fov cosF sinF σ obstacles others cfg frame c halive hsize, ?_⟩
  intro forwardSpeed collisions cfg' frame' c'
  simp [CreatureEntity.updateFitness]

theorem run_fitness_formula_witness :
    (testCreature.isAlive = true) ∧ (testCreature.brain.config.inputSize = 14) ∧
    ((testCreature.run 0 (fun _ => 1) (fun _ => 0) (fun x => x) [] [] none 0).map
        (fun r => r.1.fitness)
      = Except.ok (max 0
          ((0 - testCreature.birthFrame) * defaultFitnessConfig.survivalReward
            + runForwardSpeed (fun x => x)
                (testCreature.runVisionData 0 (fun _ => 1) (fun _ => 0) [] []) testCreature
                * defaultFitnessConfig.forwardMovementReward
            - min (2 * (1 - meanList
                  (testCreature.runVisionData 0 (fun _ => 1) (fun _ => 0) [] []).distances)) 2
                * defaultFitnessConfig.collisionPenalty))) := by
  refine ⟨rfl, rfl, ?_⟩
  exact (run_fitness_formula 0 (fun _ => 1) (fun _ => 0) (fun x => x) [] [] none 0
    testCreature rfl rfl).1

/-- C10: the kill reward that the projectile handler adds to a living
shooter's fitness does not survive the shooter's next `run()`: the fitness
after that `run` is the survival-formula value of the tick, computed from the
reward-free state, for every reward amount. -/
theorem kill_reward_not_persistent (fov : ℚ) (cosF sinF σ : ℚ → ℚ)
    (obstacles others : List Rectangle) (cfg : Option FitnessConfig)
    (frame : ℚ) (c : CreatureEntity) (kr : ℚ) (halive : c.isAlive = true)
    (hsize : c.brain.config.inputSize = 14) :
    (((applyKillReward kr c).run fov cosF sinF σ obstacles others cfg frame).map
        (fun r => r.1.fitness)
      = Except.ok (max 0
          ((frame - c.birthFrame) * (cfg.getD defaultFitnessConfig).survivalReward
            + runForwardSpeed σ (c.runVisionData fov cosF sinF obstacles others) c
                * (cfg.getD defaultFitnessConfig).forwardMovementReward
            - min (2 * (1 - meanList
                  (c.runVisionData fov cosF sinF obstacles others).distances)) 2
                * (cfg.getD defaultFitnessConfig).collisionPenalty)))
    ∧ (((applyKillReward kr c).run fov cosF sinF σ obstacles others cfg frame).map
        (fun r => r.1.fitness)
      = (c.run fov cosF sinF σ obstacles others cfg frame).map (fun r => r.1.fitness)) := by
  have h1 := run_fitness_eq fov cosF sinF σ obstacles others cfg frame
    (applyKillReward kr c) halive hsize
  have h2 := run_fitness_eq fov cosF sinF σ obstacles others cfg frame c halive hsize
  have heq : ∀ vd, runForwardSpeed σ vd (applyKillReward kr c) = runForwardSpeed σ vd c :=
    fun vd => rfl
  have hvd : (applyKillReward kr c).runVisionData fov cosF sinF obstacles others
      = c.runVisionData fov cosF sinF obstacles others := rfl
  have hbf : (applyKillReward kr c).birthFrame = c.birthFrame := rfl
  rw [heq, hvd, hbf] at h1
  exact ⟨h1, h1.trans h2.symm⟩

theorem kill_reward_not_persistent_witness :
    (testCreature.isAlive = true) ∧
    (((applyKillReward 50 testCreature).run 0 (fun _ => 1) (fun _ => 0) (fun x => x)
        [] [] none 0).map (fun r => r.1.fitness)
      = (testCreature.run 0 (fun _ => 1) (fun _ => 0) (fun x => x) [] [] none 0).map
          (fun r => r.1.fitness)) := by
  refine ⟨rfl, ?_⟩
  exact (kill_reward_not_persistent 0 (fun _ => 1) (fun _ => 0) (fun x => x) [] [] none 0
    testCreature 50 rfl rfl).2

/-- C1 counterexample: the claimed invariant `energy ≥ 0 ∧ (isAlive ↔ energy > 0)`
fails after concrete energy-reducing operations: a 500-damage hit on a creature
with 100 energy leaves energy −400, and a shot fired with exactly 15 energy
leaves energy 0 with the alive flag still set. -/
theorem creature_energy_invariant_counterexample :
    ((testCreature.takeDamage PROJECTILE_DAMAGE).1.energy = -400
      ∧ ¬(0 ≤ (testCreature.takeDamage PROJECTILE_DAMAGE).1.energy))
    ∧ ((testShooter.createProjectile (fun _ => 1) (fun _ => 0) "p").map
          (fun r => (r.2.energy, r.2.isAlive)) = some (0, true)) := by
  refine ⟨⟨?_, ?_⟩, ?_⟩
  · norm_num [testCreature, testShooter, CreatureEntity.takeDamage, PROJECTILE_DAMAGE,
      testBrain]
  · norm_num [testCreature, testShooter, CreatureEntity.takeDamage, PROJECTILE_DAMAGE,
      testBrain]
  · norm_num [testCreature, testShooter, CreatureEntity.createProjectile,
      CreatureEntity.canShoot, SHOOT_ENERGY_COST, SHOOT_COOLDOWN_MAX, testBrain]

/-- C1 amended: after `run()` on a living agent the alive flag tracks positive
energy (`isAlive ↔ energy > 0`); `takeDamage` with non-negative damage
preserves that equivalence; and `createProjectile` leaves a non-negative
energy.  (The original claim fails because `takeDamage` does not clamp energy
at 0 and `createProjectile` performs no alive re-check.) -/
theorem creature_energy_alive_flag (fov : ℚ) (cosF sinF σ : ℚ → ℚ)
    (obstacles others : List Rectangle) (cfg : Option FitnessConfig) (frame : ℚ) :
    (∀ c : CreatureEntity, c.isAlive = true →
      ∀ p ∈ (c.run fov cosF sinF σ obstacles others cfg frame).toOption,
        (p.1.isAlive = true ↔ 0 < p.1.energy))
    ∧ (∀ (c : CreatureEntity) (damage : ℚ), 0 ≤ damage →
        (c.isAlive = true ↔ 0 < c.energy) →
        ((c.takeDamage damage).1.isAlive = true ↔ 0 < (c.takeDamage damage).1.energy))
    ∧ (∀ (c : CreatureEntity) (pid : String) (r : Projectile × CreatureEntity),
        c.createProjectile cosF sinF pid = some r → 0 ≤ r.2.energy) := by
  refine ⟨?_, ?_, ?_⟩
  · intro c halive p hp
    cases hproc : Brain.process σ c.brain
        (c.runInputs (c.runVisionData fov cosF sinF obstacles others)) with
    | error e =>
        simp [CreatureEntity.run, halive, hproc, Except.map, Except.toOption] at hp
    | ok outs =>
        simp only [CreatureEntity.run, halive, Bool.true_eq_false, if_false, hproc,
          Except.map, Except.toOption, Option.mem_def, Option.some.injEq] at hp
        subst hp
        rw [updateFitness_isAlive, updateFitness_energy]
        rcases le_or_lt (c.energy - (0.5 + |max 0 (outs.getD 2 0)| * 0.3)) 0 with hE | hE
        · rw [if_pos hE]
          constructor
          · intro h; exact absurd h (by simp)
          · intro h; exact absurd hE (not_le.mpr h)
        · rw [if_neg (not_le.mpr hE)]
          exact ⟨fun _ => hE, fun _ => rfl⟩
  · intro c damage hdmg hiff
    simp only [CreatureEntity.takeDamage]
    by_cases hcond : c.energy - damage ≤ 0 ∧ c.isAlive = true
    · rw [if_pos hcond]
      constructor
      · intro h; exact absurd h (by simp)
      · intro h; exact absurd h (not_lt.mpr hcond.1)
    · rw [if_neg hcond]
      constructor
      · intro halive
        have halive' : c.isAlive = true := halive
        show 0 < c.energy - damage
        rcases not_and_or.mp hcond with h | h
        · exact not_le.mp h
        · exact absurd halive' h
      · intro hpos
        have hpos' : 0 < c.energy - damage := hpos
        show c.isAlive = true
        exact hiff.mpr (by linarith)
  · intro c pid r hr
    by_cases hcan : c.canShoot = true
    · have henergy : c.energy ≥ SHOOT_ENERGY_COST := by
        have h := hcan
        simp only [CreatureEntity.canShoot, Bool.and_eq_true, decide_eq_true_eq] at h
        exact h.2
      simp only [CreatureEntity.createProjectile, hcan, not_true_eq_false,
        if_false, Option.some.injEq] at hr
      rw [← hr]
      simp only [SHOOT_ENERGY_COST] at henergy ⊢
      linarith
    · simp only [Bool.not_eq_true] at hcan
      simp [CreatureEntity.createProjectile, hcan] at hr

theorem creature_energy_alive_flag_witness :
    (testCreature.isAlive = true ↔ 0 < testCreature.energy) ∧
    (((testCreature.takeDamage 30).1.isAlive = true
        ↔ 0 < (testCreature.takeDamage 30).1.energy)) := by
  constructor
  · norm_num [testCreature, testBrain]
  · exact (creature_energy_alive_flag 0 (fun _ => 1) (fun _ => 0) (fun x => x)
      [] [] none 0).2.1 testCreature 30 (by norm_num)
      (by norm_num [testCreature, testBrain])

/-! ## Genome encode/decode round trip (C3) -/

theorem readRows_append (rows : List (List ℚ)) (rowLen : ℕ) (tail : List ℚ)
    (h : ∀ r ∈ rows, r.length = rowLen) :
    readRows rows.length rowLen (rows.flatten ++ tail) = (rows, tail) := by
  induction rows with
  | nil => simp [readRows]
  | cons r rest ih =>
      have hr : r.length = rowLen := h r (by simp)
      have hrest : ∀ x ∈ rest, x.length = rowLen := fun x hx => h x (by simp [hx])
      simp only [List.length_cons, List.flatten_cons, List.append_assoc, readRows]
      rw [List.take_left' hr, List.drop_left' hr, ih hrest]

theorem decodeWeights_encode (w : List (List (List ℚ))) (trs : List (ℕ × ℕ))
    (tail : List ℚ) (h : weightsMatch w trs = true) :
    decodeWeights trs (w.flatten.flatten ++ tail) = (w, tail) := by
  induction w generalizing trs tail with
  | nil =>
      cases trs with
      | nil => simp [decodeWeights]
      | cons p ps => simp [weightsMatch] at h
  | cons layer rest ih =>
      cases trs with
      | nil => simp [weightsMatch] at h
      | cons p ps =>
          obtain ⟨cur, next⟩ := p
          simp only [weightsMatch, Bool.and_eq_true, beq_iff_eq,
            List.all_eq_true] at h
          obtain ⟨⟨hlen, hrows⟩, hrest⟩ := h
          have hrows' : ∀ row ∈ layer, row.length = cur := by
            intro row hrow
            simpa using hrows row hrow
          simp only [List.flatten_cons, List.flatten_append, List.append_assoc,
            decodeWeights]
          rw [← hlen,
            readRows_append layer cur (rest.flatten.flatten ++ tail) hrows',
            ih ps tail hrest]

theorem decodeBiases_encode (b : List (List ℚ)) (sizes : List ℕ) (tail : List ℚ)
    (h : biasesMatch b sizes = true) :
    decodeBiases sizes (b.flatten ++ tail) = (b, tail) := by
  induction b generalizing sizes tail with
  | nil =>
      cases sizes with
      | nil => simp [decodeBiases]
      | cons s ss => simp [biasesMatch] at h
  | cons layer rest ih =>
      cases sizes with
      | nil => simp [biasesMatch] at h
      | cons s ss =>
          simp only [biasesMatch, Bool.and_eq_true, beq_iff_eq] at h
          obtain ⟨hlen, hrest⟩ := h
          simp only [List.flatten_cons, List.append_assoc, decodeBiases]
          rw [← hlen, List.take_left' rfl, List.drop_left' rfl, ih ss tail hrest]

/-- C3: for every brain whose weight/bias tensors match its configured layer
sizes, `Genome.fromBrain(b).toBrain()` reproduces the weight and bias tensors
element for element (encode flattens weights layer by layer then biases layer
by layer, and decode inverts it exactly). -/
theorem genome_roundtrip (b : Brain) (md : GenomeMetadata)
    (hshape : shapesMatch b.network b.config = true) :
    ((Genome.fromBrain b md).toBrain).network = b.network ∧
    ((Genome.fromBrain b md).toBrain).config = b.config := by
  refine ⟨?_, rfl⟩
  have h := hshape
  simp only [shapesMatch, Bool.and_eq_true] at h
  obtain ⟨hw, hb⟩ := h
  show decodeNetwork (encodeNetwork b.network) b.config = b.network
  unfold decodeNetwork encodeNetwork
  dsimp only
  rw [decodeWeights_encode b.network.weights (layerPairs (allLayerSizes b.config))
    b.network.biases.flatten hw]
  have hbias : decodeBiases (allLayerSizes b.config).tail b.network.biases.flatten
      = (b.network.biases, []) := by
    have := decodeBiases_encode b.network.biases (allLayerSizes b.config).tail [] hb
    simpa using this
  rw [hbias]

theorem genome_roundtrip_witness :
    (shapesMatch testSmallBrain.network testSmallBrain.config = true) ∧
    ((Genome.fromBrain testSmallBrain testMetadata).toBrain).network
      = testSmallBrain.network :=
  ⟨by decide, (genome_roundtrip testSmallBrain testMetadata (by decide)).1⟩

/-! ## Crossover (C7) and mutation (C8) -/

theorem getD_mapIdx {α β : Type} (l : List α) (f : ℕ → α → β) (i : ℕ) (d : β) :
    (l.mapIdx f).getD i d = if h : i < l.length then f i l[i] else d := by
  rcases lt_or_le i l.length with h | h
  · rw [dif_pos h, List.getD_eq_getElem _ _ (by simpa using h), List.getElem_mapIdx]
  · rw [dif_neg (not_lt.mpr h), List.getD_eq_default _ _ (by simpa using h)]

theorem map_getD_range (l : List ℚ) :
    List.map (fun i => l.getD i 0) (List.range l.length) = l := by
  apply List.ext_getElem
  · simp
  · intro i h1 h2
    simp [List.getD_eq_getElem _ _ h2, List.getElem?_eq_getElem h2]

theorem areCompatible_self (g : Genome) : Genome.areCompatible g g = true := by
  unfold Genome.areCompatible
  rcases h : g.config.hiddenLayers with _ | hs <;> simp [h]

/-- C7: `Genome.crossover` fails exactly on incompatible shape descriptors;
a successful crossover has the parents' gene-vector length and draws every
gene from one of the two parents; crossing a genome with itself reproduces
its gene vector; and `Brain.crossover` has the same per-element property on
the weight and bias tensors. -/
theorem genome_crossover_spec :
    (∀ (coins : ℕ → Bool) (g1 g2 : Genome) (md : GenomeMetadata),
      ((Genome.crossover coins g1 g2 md).toOption = none
        ↔ Genome.areCompatible g1 g2 = false))
    ∧ (∀ (coins : ℕ → Bool) (g1 g2 : Genome) (md : GenomeMetadata),
        ∀ child ∈ (Genome.crossover coins g1 g2 md).toOption,
          child.genes.length = g1.genes.length
          ∧ (g1.genes.length = g2.genes.length →
              ∀ i, i < child.genes.length →
                child.genes.getD i 0 = g1.genes.getD i 0
                ∨ child.genes.getD i 0 = g2.genes.getD i 0))
    ∧ (∀ (coins : ℕ → Bool) (g : Genome) (md : GenomeMetadata),
        (Genome.crossover coins g g md).map (fun child => child.genes)
          = Except.ok g.genes)
    ∧ (∀ (coinW : ℕ → ℕ → ℕ → Bool) (coinB : ℕ → ℕ → Bool) (p1 p2 : Brain)
        (cfg : BrainConfig),
        ∀ child ∈ (Brain.crossover coinW coinB p1 p2 cfg).toOption,
          (∀ li ni wi,
            tensorGet child.network.weights li ni wi
                = tensorGet p1.network.weights li ni wi
              ∨ tensorGet child.network.weights li ni wi
                = tensorGet p2.network.weights li ni wi)
          ∧ (∀ li ni,
              matrixGet child.network.biases li ni
                  = matrixGet p1.network.biases li ni
                ∨ matrixGet child.network.biases li ni
                  = matrixGet p2.network.biases li ni)) := by
  refine ⟨?_, ?_, ?_, ?_⟩
  · intro coins g1 g2 md
    unfold Genome.crossover
    by_cases hcompat : Genome.areCompatible g1 g2 = true
    · simp [hcompat, Except.toOption]
    · simp only [Bool.not_eq_true] at hcompat
      simp [hcompat, Except.toOption]
  · intro coins g1 g2 md child hchild
    by_cases hcompat : Genome.areCompatible g1 g2 = true
    · simp only [Genome.crossover, hcompat, Bool.not_true, not_true_eq_false,
        if_false, Except.toOption, Option.mem_def, Option.some.injEq] at hchild
      subst hchild
      constructor
      · simp
      · intro _ i hi
        simp only [List.length_map, List.length_range] at hi
        rw [List.getD_eq_getElem _ _ (by simpa using hi)]
        rw [List.getElem_map]
        rw [List.getElem_range]
        by_cases hc : coins i = true
        · left; rw [if_pos hc]
        · right; rw [if_neg hc]
    · simp only [Bool.not_eq_true] at hcompat
      simp [Genome.crossover, hcompat, Except.toOption] at hchild
  · intro coins g md
    simp only [Genome.crossover, areCompatible_self, Bool.not_true,
      not_true_eq_false, if_false, Except.map]
    simp only [ite_self, map_getD_range]
  · intro coinW coinB p1 p2 cfg child hchild
    by_cases hcompat : Brain.areCompatible p1 p2 = true
    · simp only [Brain.crossover, hcompat, not_true_eq_false, if_false,
        Except.toOption, Option.mem_def, Option.some.injEq] at hchild
      subst hchild
      constructor
      · intro li ni wi
        simp only [tensorGet, getD_mapIdx]
        rcases Nat.lt_or_ge li p1.network.weights.length with hli | hli
        · rw [dif_pos hli]
          rcases Nat.lt_or_ge ni (p1.network.weights[li]).length with hni | hni
          · rw [getD_mapIdx, dif_pos hni]
            rcases Nat.lt_or_ge wi (p1.network.weights[li][ni]).length with hwi | hwi
            · rw [getD_mapIdx, dif_pos hwi]
              by_cases hc : coinW li ni wi = true
              · left
                rw [if_pos hc, List.getD_eq_getElem _ _ hli,
                  List.getD_eq_getElem _ _ hni, List.getD_eq_getElem _ _ hwi]
              · right
                rw [if_neg hc]
            · left
              rw [getD_mapIdx, dif_neg (not_lt.mpr hwi),
                List.getD_eq_getElem _ _ hli, List.getD_eq_getElem _ _ hni,
                List.getD_eq_default _ _ hwi]
          · left
            rw [getD_mapIdx, dif_neg (not_lt.mpr hni),
              List.getD_eq_getElem _ _ hli, List.getD_eq_default _ _ hni]
        · left
          rw [dif_neg (not_lt.mpr hli), List.getD_eq_default _ _ hli]
      · intro li ni
        simp only [matrixGet, getD_mapIdx]
        rcases Nat.lt_or_ge li p1.network.biases.length with hli | hli
        · rw [dif_pos hli]
          rcases Nat.lt_or_ge ni (p1.network.biases[li]).length with hni | hni
          · rw [getD_mapIdx, dif_pos hni]
            by_cases hc : coinB li ni = true
            · left
              rw [if_pos hc, List.getD_eq_getElem _ _ hli,
                List.getD_eq_getElem _ _ hni]
            · right
              rw [if_neg hc]
          · left
            rw [getD_mapIdx, dif_neg (not_lt.mpr hni),
              List.getD_eq_getElem _ _ hli, List.getD_eq_default _ _ hni]
        · left
          rw [dif_neg (not_lt.mpr hli), List.getD_eq_default _ _ hli]
    · simp only [Bool.not_eq_true] at hcompat
      simp [Brain.crossover, hcompat, Except.toOption] at hchild

theorem genome_crossover_spec_witness :
    ((Genome.crossover (fun _ => true) testGenome testGenome' testMetadata).toOption
        = none ↔ Genome.areCompatible testGenome testGenome' = false)
    ∧ ((Genome.crossover (fun _ => true) testGenome testGenome testMetadata).map
        (fun child => child.genes) = Except.ok testGenome.genes) :=
  ⟨(genome_crossover_spec.1 (fun _ => true) testGenome testGenome' testMetadata),
   (genome_crossover_spec.2.2.1 (fun _ => true) testGenome testMetadata)⟩

theorem perturbation_bound (p s : ℚ) (hp0 : 0 ≤ p) (hp1 : p < 1) (hs : 0 ≤ s) :
    |(p - 0.5) * s| ≤ s / 2 := by
  rw [abs_mul, abs_of_nonneg hs]
  have h1 : |p - 0.5| ≤ 0.5 := abs_le.mpr ⟨by linarith, by linarith⟩
  calc |p - 0.5| * s ≤ 0.5 * s := mul_le_mul_of_nonneg_right h1 hs
    _ = s / 2 := by ring

/-- C8: mutation keeps the gene-vector length; with random draws in `[0,1)`
and non-negative strength, every output gene either equals the input gene or
is the input gene plus a perturbation of magnitude at most `strength/2`,
clamped to `[-5,5]`; a zero mutation rate changes nothing; and
`Brain.mutate` has the same per-element property on the weight and bias
tensors with its configured rate and strength. -/
theorem genome_mutate_spec :
    (∀ (r p : ℕ → ℚ) (rate strength : ℚ) (g : Genome) (md : GenomeMetadata),
      (Genome.mutate r p rate strength g md).genes.length = g.genes.length)
    ∧ (∀ (r p : ℕ → ℚ) (rate strength : ℚ) (g : Genome) (md : GenomeMetadata),
        (∀ i, 0 ≤ p i ∧ p i < 1) → 0 ≤ strength →
        ∀ i, i < g.genes.length →
          (Genome.mutate r p rate strength g md).genes.getD i 0 = g.genes.getD i 0
          ∨ ∃ δ : ℚ, |δ| ≤ strength / 2 ∧
              (Genome.mutate r p rate strength g md).genes.getD i 0
                = clampWeight (g.genes.getD i 0 + δ))
    ∧ (∀ (r p : ℕ → ℚ) (strength : ℚ) (g : Genome) (md : GenomeMetadata),
        (∀ i, 0 ≤ r i) →
        (Genome.mutate r p 0 strength g md).genes = g.genes)
    ∧ (∀ (rW pW : ℕ → ℕ → ℕ → ℚ) (rB pB : ℕ → ℕ → ℚ) (b : Brain),
        (∀ li ni wi, 0 ≤ pW li ni wi ∧ pW li ni wi < 1) →
        (∀ li ni, 0 ≤ pB li ni ∧ pB li ni < 1) →
        0 ≤ b.config.mutationStrength →
        (∀ li ni wi,
          tensorGet (Brain.mutate rW pW rB pB b).network.weights li ni wi
              = tensorGet b.network.weights li ni wi
            ∨ ∃ δ : ℚ, |δ| ≤ b.config.mutationStrength / 2 ∧
                tensorGet (Brain.mutate rW pW rB pB b).network.weights li ni wi
                  = clampWeight (tensorGet b.network.weights li ni wi + δ))
        ∧ (∀ li ni,
            matrixGet (Brain.mutate rW pW rB pB b).network.biases li ni
                = matrixGet b.network.biases li ni
              ∨ ∃ δ : ℚ, |δ| ≤ b.config.mutationStrength / 2 ∧
                  matrixGet (Brain.mutate rW pW rB pB b).network.biases li ni
                    = clampWeight (matrixGet b.network.biases li ni + δ))) := by
  refine ⟨?_, ?_, ?_, ?_⟩
  · intro r p rate strength g md
    simp [Genome.mutate, List.length_mapIdx]
  · intro r p rate strength g md hp hs i hi
    simp only [Genome.mutate]
    rw [List.getD_eq_getElem _ _ (by simpa [List.length_mapIdx] using hi),
      List.getElem_mapIdx]
    by_cases hr : r i < rate
    · right
      refine ⟨(p i - 0.5) * strength,
        perturbation_bound (p i) strength (hp i).1 (hp i).2 hs, ?_⟩
      rw [if_pos hr, List.getD_eq_getElem _ _ hi]
    · left
      rw [if_neg hr, List.getD_eq_getElem _ _ hi]
  · intro r p strength g md hr
    simp only [Genome.mutate]
    apply List.ext_getElem
    · simp [List.length_mapIdx]
    · intro i h1 h2
      rw [List.getElem_mapIdx, if_neg (not_lt.mpr (hr i))]
  · intro rW pW rB pB b hpW hpB hs
    constructor
    · intro li ni wi
      simp only [Brain.mutate, tensorGet, getD_mapIdx]
      rcases Nat.lt_or_ge li b.network.weights.length with hli | hli
      · rw [dif_pos hli]
        rcases Nat.lt_or_ge ni (b.network.weights[li]).length with hni | hni
        · rw [getD_mapIdx, dif_pos hni]
          rcases Nat.lt_or_ge wi (b.network.weights[li][ni]).length with hwi | hwi
          · rw [getD_mapIdx, dif_pos hwi]
            by_cases hr : rW li ni wi < b.config.mutationRate
            · right
              refine ⟨(pW li ni wi - 0.5) * b.config.mutationStrength,
                perturbation_bound _ _ (hpW li ni wi).1 (hpW li ni wi).2 hs, ?_⟩
              rw [if_pos hr, List.getD_eq_getElem _ _ hli,
                List.getD_eq_getElem _ _ hni, List.getD_eq_getElem _ _ hwi]
            · left
              rw [if_neg hr, List.getD_eq_getElem _ _ hli,
                List.getD_eq_getElem _ _ hni, List.getD_eq_getElem _ _ hwi]
          · left
            rw [getD_mapIdx, dif_neg (not_lt.mpr hwi),
              List.getD_eq_getElem _ _ hli, List.getD_eq_getElem _ _ hni,
              List.getD_eq_default _ _ hwi]
        · left
          rw [getD_mapIdx, dif_neg (not_lt.mpr hni),
            List.getD_eq_getElem _ _ hli, List.getD_eq_default _ _ hni]
      · left
        rw [dif_neg (not_lt.mpr hli), List.getD_eq_default _ _ hli]
    · intro li ni
      simp only [Brain.mutate, matrixGet, getD_mapIdx]
      rcases Nat.lt_or_ge li b.network.biases.length with hli | hli
      · rw [dif_pos hli]
        rcases Nat.lt_or_ge ni (b.network.biases[li]).length with hni | hni
        · rw [getD_mapIdx, dif_pos hni]
          by_cases hr : rB li ni < b.config.mutationRate
          · right
            refine ⟨(pB li ni - 0.5) * b.config.mutationStrength,
              perturbation_bound _ _ (hpB li ni).1 (hpB li ni).2 hs, ?_⟩
            rw [if_pos hr, List.getD_eq_getElem _ _ hli,
              List.getD_eq_getElem _ _ hni]
          · left
            rw [if_neg hr, List.getD_eq_getElem _ _ hli,
              List.getD_eq_getElem _ _ hni]
        · left
          rw [getD_mapIdx, dif_neg (not_lt.mpr hni),
            List.getD_eq_getElem _ _ hli, List.getD_eq_default _ _ hni]
      · left
        rw [dif_neg (not_lt.mpr hli), List.getD_eq_default _ _ hli]

/-! ## Brain.process shape and range (C9) -/

theorem layerPairs_cons (a b : ℕ) (l : List ℕ) :
    layerPairs (a :: b :: l) = (a, b) :: layerPairs (b :: l) := rfl

theorem allLayerSizes_eq (config : BrainConfig) :
    allLayerSizes config = config.inputSize :: (allLayerSizes config).tail := by
  rcases h : config.hiddenLayers with _ | hs <;> simp [allLayerSizes, h]

theorem allLayerSizes_tail_ne_nil (config : BrainConfig) :
    (allLayerSizes config).tail ≠ [] := by
  rcases h : config.hiddenLayers with _ | hs <;> simp [allLayerSizes, h]

theorem allLayerSizes_tail_getLastD (config : BrainConfig) :
    (allLayerSizes config).tail.getLastD config.inputSize = config.outputSize := by
  rcases h : config.hiddenLayers with _ | hs
  · simp only [allLayerSizes, h, List.tail_cons]
    rw [List.getLastD_cons]
    rfl
  · simp only [allLayerSizes, h, List.tail_cons]
    exact List.getLastD_concat _ _ _

theorem processNetwork_aux (σ : ℚ → ℚ) (hσ : ∀ x, 0 ≤ σ x ∧ σ x ≤ 1) :
    ∀ (w : List (List (List ℚ))) (cur : ℕ) (rest : List ℕ) (bs : List (List ℚ))
      (inputs : List ℚ),
      weightsMatch w (layerPairs (cur :: rest)) = true →
      biasesMatch bs rest = true →
      inputs.length = cur →
      ((w.zip bs).foldl (layerStep σ) inputs).length = rest.getLastD cur
      ∧ (rest ≠ [] → ∀ v ∈ (w.zip bs).foldl (layerStep σ) inputs, 0 ≤ v ∧ v ≤ 1) := by
  intro w
  induction w with
  | nil =>
      intro cur rest bs inputs hw hb hlen
      cases rest with
      | nil =>
          constructor
          · simpa using hlen
          · intro h; exact absurd rfl h
      | cons r rs =>
          rw [layerPairs_cons] at hw
          simp [weightsMatch] at hw
  | cons layer w' ih =>
      intro cur rest bs inputs hw hb hlen
      cases rest with
      | nil => simp [layerPairs, weightsMatch] at hw
      | cons r rs =>
          rw [layerPairs_cons] at hw
          simp only [weightsMatch, Bool.and_eq_true, beq_iff_eq,
            List.all_eq_true] at hw
          obtain ⟨⟨hlayerlen, _hrows⟩, hw'⟩ := hw
          cases bs with
          | nil => simp [biasesMatch] at hb
          | cons lb bs' =>
              simp only [biasesMatch, Bool.and_eq_true, beq_iff_eq] at hb
              obtain ⟨hlb, hb'⟩ := hb
              have hA : (layerStep σ inputs (layer, lb)).length = r := by
                simp [layerStep, hlayerlen, hlb]
              have hArange : ∀ v ∈ layerStep σ inputs (layer, lb), 0 ≤ v ∧ v ≤ 1 := by
                intro v hv
                simp only [layerStep, List.mem_map] at hv
                obtain ⟨neuron, _hmem, rfl⟩ := hv
                exact hσ _
              have hrec := ih r rs bs' (layerStep σ inputs (layer, lb)) hw' hb' hA
              constructor
              · rw [List.zip_cons_cons, List.foldl_cons, List.getLastD_cons]
                exact hrec.1
              · intro _
                cases rs with
                | nil =>
                    cases w' with
                    | nil =>
                        intro v hv
                        simp only [List.zip_cons_cons, List.foldl_cons] at hv
                        exact hArange v (by simpa using hv)
                    | cons l2 w2 => simp [layerPairs, weightsMatch] at hw'
                | cons r2 rs2 =>
                    intro v hv
                    exact hrec.2 (by simp) v (by simpa using hv)

/-- C9: `Brain.process` throws exactly on an input-length mismatch; on a brain
whose tensors match its configured layer sizes, it returns exactly
`outputSize` values, each in the activation's range `[0,1]` — the range of
the sigmoid, which is applied on every neuron including the outputs. -/
theorem brain_process_spec :
    (∀ x : ℝ, 0 < sigmoid x ∧ sigmoid x < 1)
    ∧ (∀ (σ : ℚ → ℚ) (b : Brain) (inputs : List ℚ),
        ((Brain.process σ b inputs).toOption = none
          ↔ inputs.length ≠ b.config.inputSize))
    ∧ (∀ (σ : ℚ → ℚ) (b : Brain) (inputs : List ℚ),
        (∀ x, 0 ≤ σ x ∧ σ x ≤ 1) →
        shapesMatch b.network b.config = true →
        inputs.length = b.config.inputSize →
        ∀ outs ∈ (Brain.process σ b inputs).toOption,
          outs.length = b.config.outputSize ∧ (∀ v ∈ outs, 0 ≤ v ∧ v ≤ 1)) := by
  refine ⟨?_, ?_, ?_⟩
  · intro x
    have hexp : 0 < Real.exp (-x) := Real.exp_pos (-x)
    constructor
    · unfold sigmoid
      positivity
    · unfold sigmoid
      rw [div_lt_one (by positivity)]
      linarith
  · intro σ b inputs
    unfold Brain.process
    by_cases h : inputs.length = b.config.inputSize
    · simp [h, Except.toOption]
    · simp [h, Except.toOption]
  · intro σ b inputs hσ hshape hlen outs houts
    have hproc : Brain.process σ b inputs
        = Except.ok (processNetwork σ b.network inputs) := by
      simp [Brain.process, hlen]
    rw [hproc] at houts
    simp only [Except.toOption, Option.mem_def, Option.some.injEq] at houts
    subst houts
    simp only [shapesMatch, Bool.and_eq_true] at hshape
    obtain ⟨hw, hb⟩ := hshape
    rw [allLayerSizes_eq b.config] at hw
    have hb' : biasesMatch b.network.biases (allLayerSizes b.config).tail = true := hb
    have haux := processNetwork_aux σ hσ b.network.weights b.config.inputSize
      (allLayerSizes b.config).tail b.network.biases inputs hw hb' hlen
    constructor
    · rw [processNetwork, haux.1, allLayerSizes_tail_getLastD]
    · exact haux.2 (allLayerSizes_tail_ne_nil b.config)

theorem brain_process_spec_witness :
    ((Brain.process (fun _ => 1/2) testSmallBrain [3]).toOption = none
      ↔ ([3] : List ℚ).length ≠ testSmallBrain.config.inputSize)
    ∧ (∀ outs ∈ (Brain.process (fun _ => 1/2) testSmallBrain [3]).toOption,
        outs.length = testSmallBrain.config.outputSize
        ∧ (∀ v ∈ outs, 0 ≤ v ∧ v ≤ 1)) :=
  ⟨brain_process_spec.2.1 (fun _ => 1/2) testSmallBrain [3],
   brain_process_spec.2.2 (fun _ => 1/2) testSmallBrain [3]
     (fun x => ⟨by norm_num, by norm_num⟩) (by decide) (by decide)⟩

/-! ## Vision ray lengths (C6) -/

theorem foldl_min_le_init (l : List ℚ) (d : ℚ) : l.foldl min d ≤ d := by
  induction l generalizing d with
  | nil => simp
  | cons x xs ih =>
      calc (x :: xs).foldl min d = xs.foldl min (min d x) := by rw [List.foldl_cons]
        _ ≤ min d x := ih (min d x)
        _ ≤ d := min_le_left d x

theorem castRayAux_snd (maxD : ℚ) (origin dir : Vector2D) :
    ∀ (l : List Rectangle) (acc : Option ℚ × ℚ),
      (castRayAux maxD origin dir l acc).2
        = (l.filterMap (rayRectangleIntersection maxD origin dir)).foldl min acc.2 := by
  intro l
  induction l with
  | nil => intro acc; simp [castRayAux]
  | cons o rest ih =>
      intro acc
      simp only [castRayAux, List.filterMap_cons]
      cases h : rayRectangleIntersection maxD origin dir o with
      | none => rw [ih]
      | some t =>
          simp only [List.foldl_cons]
          by_cases hlt : t < acc.2
          · rw [if_pos hlt, ih]
            congr 1
            exact (min_eq_right (le_of_lt hlt)).symm
          · rw [if_neg hlt, ih]
            congr 1
            exact (min_eq_left (not_lt.mp hlt)).symm

theorem castRayAux_fst_spec (maxD : ℚ) (origin dir : Vector2D) :
    ∀ (l : List Rectangle) (acc : Option ℚ × ℚ),
      castRayAux maxD origin dir l acc = acc
      ∨ ∃ t, castRayAux maxD origin dir l acc = (some t, t) := by
  intro l
  induction l with
  | nil => intro acc; left; rfl
  | cons o rest ih =>
      intro acc
      simp only [castRayAux]
      cases h : rayRectangleIntersection maxD origin dir o with
      | none => exact ih acc
      | some t =>
          dsimp only
          by_cases hlt : t < acc.2
          · rw [if_pos hlt]
            rcases ih (some t, t) with h' | ⟨t', h'⟩
            · right; exact ⟨t, h'⟩
            · right; exact ⟨t', h'⟩
          · rw [if_neg hlt]
            exact ih acc

theorem castSingleRay_eq (maxD : ℚ) (origin dir : Vector2D)
    (obstacles : List Rectangle) :
    castSingleRay maxD origin dir obstacles
      = (min (nearestHitDistance maxD origin dir obstacles) maxD,
         min (nearestHitDistance maxD origin dir obstacles / maxD) 1) := by
  have hsnd := castRayAux_snd maxD origin dir obstacles (none, maxD)
  rcases castRayAux_fst_spec maxD origin dir obstacles (none, maxD) with h | ⟨t, h⟩
  · have hF : nearestHitDistance maxD origin dir obstacles = maxD := by
      rw [nearestHitDistance, ← hsnd, h]
    unfold castSingleRay castRay
    rw [h, hF]
  · have hF : nearestHitDistance maxD origin dir obstacles = t := by
      rw [nearestHitDistance, ← hsnd, h]
    unfold castSingleRay castRay
    rw [h, hF]

/-- C6: every ray of `castVision` has length
`min(nearest hit distance, maxDistance)` (so `maxDistance` exactly when no
rectangle is hit) and normalized distance `min(length / maxDistance, 1)`;
concretely, a single ray from the origin with the unit heading `(1,0)` of
rotation 0 and `maxDistance = 200` against the rectangle
`{x:50, y:-5, w:10, h:10}` has length 50 and normalized distance 0.25, and
with no obstacles length 200 and normalized distance 1. -/
theorem castVision_ray_spec :
    (∀ (config : VisionConfig) (cosF sinF : ℚ → ℚ) (position : Vector2D)
      (rotation : ℚ) (obstacles others : List Rectangle) (i : ℕ),
      i < config.rayCount →
      (((castVision config cosF sinF position rotation obstacles others).rays.getD i
            defaultRay).length
          = min (nearestHitDistance config.maxDistance position
              (castVisionRayDirection config cosF sinF rotation i)
              (obstacles ++ others)) config.maxDistance)
      ∧ ((obstacles ++ others).filterMap
            (rayRectangleIntersection config.maxDistance position
              (castVisionRayDirection config cosF sinF rotation i)) = [] →
          ((castVision config cosF sinF position rotation obstacles others).rays.getD i
              defaultRay).length = config.maxDistance)
      ∧ ((castVision config cosF sinF position rotation obstacles others).distances.getD
            i 0
          = min (((castVision config cosF sinF position rotation obstacles
                others).rays.getD i defaultRay).length / config.maxDistance) 1))
    ∧ castSingleRay 200 ⟨0, 0⟩ ⟨1, 0⟩ [⟨50, -5, 10, 10⟩] = (50, 1/4)
    ∧ castSingleRay 200 ⟨0, 0⟩ ⟨1, 0⟩ [] = (200, 1) := by
  refine ⟨?_, ?_, ?_⟩
  · intro config cosF sinF position rotation obstacles others i hi
    have hray : (castVision config cosF sinF position rotation obstacles
        others).rays.getD i defaultRay
        = ⟨position, castVisionRayDirection config cosF sinF rotation i,
           castVisionRayAngle config rotation i,
           (castSingleRay config.maxDistance position
             (castVisionRayDirection config cosF sinF rotation i)
             (obstacles ++ others)).1, config.maxDistance⟩ := by
      simp only [castVision]
      rw [List.getD_eq_getElem _ _ (by simpa using hi), List.getElem_map,
        List.getElem_range]
    have hdist : (castVision config cosF sinF position rotation obstacles
        others).distances.getD i 0
        = (castSingleRay config.maxDistance position
            (castVisionRayDirection config cosF sinF rotation i)
            (obstacles ++ others)).2 := by
      simp only [castVision]
      rw [List.getD_eq_getElem _ _ (by simpa using hi), List.getElem_map,
        List.getElem_range]
    refine ⟨?_, ?_, ?_⟩
    · rw [hray]
      show (castSingleRay config.maxDistance position
          (castVisionRayDirection config cosF sinF rotation i)
          (obstacles ++ others)).1 = _
      rw [castSingleRay_eq]
    · intro hnone
      rw [hray]
      show (castSingleRay config.maxDistance position
          (castVisionRayDirection config cosF sinF rotation i)
          (obstacles ++ others)).1 = _
      rw [castSingleRay_eq]
      simp only [nearestHitDistance, hnone, List.foldl_nil, min_self]
    · rw [hdist, hray]
      show (castSingleRay config.maxDistance position
          (castVisionRayDirection config cosF sinF rotation i)
          (obstacles ++ others)).2
        = min ((castSingleRay config.maxDistance position
            (castVisionRayDirection config cosF sinF rotation i)
            (obstacles ++ others)).1 / config.maxDistance) 1
      rw [castSingleRay_eq]
      have hle : nearestHitDistance config.maxDistance position
          (castVisionRayDirection config cosF sinF rotation i)
          (obstacles ++ others) ≤ config.maxDistance :=
        foldl_min_le_init _ _
      rw [min_eq_left hle]
  · norm_num [castSingleRay, castRay, castRayAux, rayRectangleIntersection,
      acceptT, dirEps]
  · norm_num [castSingleRay, castRay, castRayAux]

theorem castVision_ray_spec_witness :
    (0 < (createDefaultVisionSystem 1).rayCount) ∧
    (((castVision (createDefaultVisionSystem 1) (fun _ => 1) (fun _ => 0)
          ⟨0, 0⟩ 0 [] []).distances.getD 0 0)
        = min ((((castVision (createDefaultVisionSystem 1) (fun _ => 1) (fun _ => 0)
            ⟨0, 0⟩ 0 [] []).rays.getD 0 defaultRay)).length
            / (createDefaultVisionSystem 1).maxDistance) 1) :=
  ⟨by norm_num [createDefaultVisionSystem],
   (castVision_ray_spec.1 (createDefaultVisionSystem 1) (fun _ => 1) (fun _ => 0)
     ⟨0, 0⟩ 0 [] [] 0 (by norm_num [createDefaultVisionSystem])).2.2⟩

/-! ## Generation-end detection (C4) -/

theorem runBatch_fst_creatures
    (ticks : List (List CreatureEntity → List CreatureEntity)) (st : TickerState) :
    (runBatch ticks st).1.creatures = applyTicks ticks st.creatures := by
  unfold runBatch checkGenerationEnd
  dsimp only
  split_ifs <;> rfl

theorem runBatch_isSome_iff
    (ticks : List (List CreatureEntity → List CreatureEntity)) (st : TickerState) :
    (runBatch ticks st).2.isSome = true
      ↔ (st.generationEnded = false ∧ 0 < (applyTicks ticks st.creatures).length
          ∧ (aliveOf (applyTicks ticks st.creatures)).length ≤ 1) := by
  obtain ⟨gE, cs⟩ := st
  unfold runBatch checkGenerationEnd
  dsimp only
  cases gE with
  | true => simp
  | false =>
      by_cases h1 : (applyTicks ticks cs).length > 0 <;>
        by_cases h2 : (aliveOf (applyTicks ticks cs)).length ≤ 1 <;>
        simp [h1, h2]

theorem runBatch_some
    (ticks : List (List CreatureEntity → List CreatureEntity)) (st : TickerState)
    (ev : List CreatureEntity × List CreatureEntity)
    (h : (runBatch ticks st).2 = some ev) :
    ev = (aliveOf (applyTicks ticks st.creatures),
          topPerformers (applyTicks ticks st.creatures)) := by
  unfold runBatch checkGenerationEnd at h
  dsimp only at h
  split_ifs at h with h1 h2
  exact (Option.some_inj.mp h).symm

theorem runBatch_generationEnded
    (ticks : List (List CreatureEntity → List CreatureEntity)) (st : TickerState) :
    (runBatch ticks st).1.generationEnded
      = (st.generationEnded || (runBatch ticks st).2.isSome) := by
  obtain ⟨gE, cs⟩ := st
  unfold runBatch checkGenerationEnd
  dsimp only
  cases gE with
  | true => simp
  | false =>
      by_cases h1 : (applyTicks ticks cs).length > 0 <;>
        by_cases h2 : (aliveOf (applyTicks ticks cs)).length ≤ 1 <;>
        simp [h1, h2]

theorem runFrames_ended
    (batches : List (List (List CreatureEntity → List CreatureEntity)))
    (st : TickerState) (h : st.generationEnded = true) :
    (runFrames batches st).2 = [] := by
  induction batches generalizing st with
  | nil => rfl
  | cons batch rest ih =>
      have hsome : ¬((runBatch batch st).2.isSome = true) := by
        rw [runBatch_isSome_iff]
        intro hc
        rw [h] at hc
        exact absurd hc.1 (by simp)
      have hnone : (runBatch batch st).2 = none := by
        cases hval : (runBatch batch st).2 with
        | none => rfl
        | some ev => exact absurd (by rw [hval]; rfl) hsome
      have hflag : (runBatch batch st).1.generationEnded = true := by
        rw [runBatch_generationEnded, h]
        rfl
      simp only [runFrames, hnone, Option.toList_none, List.nil_append]
      exact ih _ hflag

theorem runFrames_length_le_one
    (batches : List (List (List CreatureEntity → List CreatureEntity)))
    (st : TickerState) :
    (runFrames batches st).2.length ≤ 1 := by
  induction batches generalizing st with
  | nil => simp [runFrames]
  | cons batch rest ih =>
      cases hval : (runBatch batch st).2 with
      | none =>
          simp only [runFrames, hval, Option.toList_none, List.nil_append]
          exact ih _
      | some ev =>
          have hflag : (runBatch batch st).1.generationEnded = true := by
            rw [runBatch_generationEnded, hval]
            simp
          simp only [runFrames, hval, Option.toList_some, List.singleton_append,
            List.length_cons, runFrames_ended rest _ hflag]
          simp

/-- C4: within one generation the generation-end callback fires exactly once —
it is evaluated once per batch (after all the batch's ticks have been
applied), fires at the first batch boundary where the population is non-empty
with at most one agent alive, hands over the alive survivors together with
the 10 highest-fitness agents of the whole population in descending fitness
order, never fires once the flag is set, and the flag is cleared only by
installing a new population. -/
theorem generation_end_spec :
    (∀ (ticks : List (List CreatureEntity → List CreatureEntity)) (st : TickerState),
      ((runBatch ticks st).2.isSome = true
        ↔ (st.generationEnded = false ∧ 0 < (applyTicks ticks st.creatures).length
            ∧ (aliveOf (applyTicks ticks st.creatures)).length ≤ 1)))
    ∧ (∀ (ticks : List (List CreatureEntity → List CreatureEntity))
        (st : TickerState) (ev : List CreatureEntity × List CreatureEntity),
        (runBatch ticks st).2 = some ev →
        ev = (aliveOf (applyTicks ticks st.creatures),
              topPerformers (applyTicks ticks st.creatures)))
    ∧ (∀ (batches : List (List (List CreatureEntity → List CreatureEntity)))
        (st : TickerState), st.generationEnded = true → (runFrames batches st).2 = [])
    ∧ (∀ (batches : List (List (List CreatureEntity → List CreatureEntity)))
        (st : TickerState), (runFrames batches st).2.length ≤ 1)
    ∧ (∀ (batch : List (List CreatureEntity → List CreatureEntity))
        (batches : List (List (List CreatureEntity → List CreatureEntity)))
        (st : TickerState),
        st.generationEnded = false →
        0 < (applyTicks batch st.creatures).length →
        (aliveOf (applyTicks batch st.creatures)).length ≤ 1 →
        (runFrames (batch :: batches) st).2
          = [(aliveOf (applyTicks batch st.creatures),
              topPerformers (applyTicks batch st.creatures))])
    ∧ (∀ l : List CreatureEntity, ∃ sorted : List CreatureEntity,
        sorted.Perm l ∧ sorted.Sorted (fun a b => b.fitness ≤ a.fitness)
        ∧ topPerformers l = sorted.take 10)
    ∧ (∀ (pop : List CreatureEntity) (st : TickerState),
        (installPopulation pop st).generationEnded = false) := by
  refine ⟨runBatch_isSome_iff, runBatch_some, runFrames_ended,
    runFrames_length_le_one, ?_, ?_, ?_⟩
  · intro batch batches st hgE hlen halive
    have hsome : (runBatch batch st).2.isSome = true := by
      rw [runBatch_isSome_iff]
      exact ⟨hgE, hlen, halive⟩
    cases hval : (runBatch batch st).2 with
    | none => rw [hval] at hsome; cases hsome
    | some ev =>
        have hflag : (runBatch batch st).1.generationEnded = true := by
          rw [runBatch_generationEnded, hval]
          simp
        have hev := runBatch_some batch st ev hval
        simp only [runFrames, hval, Option.toList_some, List.singleton_append,
          runFrames_ended batches _ hflag, hev]
  · intro l
    exact ⟨List.insertionSort (fun a b => b.fitness ≤ a.fitness) l,
      List.perm_insertionSort _ l, List.sorted_insertionSort _ l, rfl⟩
  · intro pop st
    rfl

theorem generation_end_spec_witness :
    (testTickerState.generationEnded = false)
    ∧ ((runFrames [[]] testTickerState).2
        = [(aliveOf (applyTicks [] testTickerState.creatures),
            topPerformers (applyTicks [] testTickerState.creatures))]) :=
  ⟨rfl,
   generation_end_spec.2.2.2.2.1 [] [] testTickerState rfl
     (by simp [applyTicks, testTickerState])
     (by simp [applyTicks, aliveOf, testTickerState, testCreature, testBrain])⟩

/-! ## Population initialisation (C5) -/

theorem spawnLoop_spec (walls : List ArenaWall) (width height : ℚ)
    (existing : List Vector2D) (rnd : ℕ → ℚ × ℚ) :
    ∀ (fuel attempt : ℕ),
      (spawnWallCollision (spawnLoop walls width height existing rnd attempt fuel)
          walls = false
        ∧ spawnTooClose (spawnLoop walls width height existing rnd attempt fuel)
            existing = false)
      ∨ spawnLoop walls width height existing rnd attempt fuel
          = ⟨width / 2, height / 2⟩ := by
  intro fuel
  induction fuel with
  | zero => intro attempt; right; rfl
  | succ n ih =>
      intro attempt
      simp only [spawnLoop]
      by_cases h : ¬spawnWallCollision (spawnCandidate width height rnd attempt)
            walls = true
          ∧ ¬spawnTooClose (spawnCandidate width height rnd attempt) existing = true
      · rw [if_pos h]
        left
        simp only [Bool.not_eq_true] at h
        exact h
      · rw [if_neg h]
        exact ih (attempt + 1)

theorem spawnLoop_fail (walls : List ArenaWall) (width height : ℚ)
    (existing : List Vector2D) (rnd : ℕ → ℚ × ℚ)
    (h : ∀ a, spawnWallCollision (spawnCandidate width height rnd a) walls = true
          ∨ spawnTooClose (spawnCandidate width height rnd a) existing = true) :
    ∀ fuel attempt, spawnLoop walls width height existing rnd attempt fuel
      = ⟨width / 2, height / 2⟩ := by
  intro fuel
  induction fuel with
  | zero => intro attempt; rfl
  | succ n ih =>
      intro attempt
      simp only [spawnLoop]
      rw [if_neg]
      · exact ih (attempt + 1)
      · rcases h attempt with hw | hc
        · intro hcon
          exact absurd hw (by simpa using hcon.1)
        · intro hcon
          exact absurd hc (by simpa using hcon.2)

theorem spawnPosition_ok (arena : String) (width height : ℚ)
    (existing : List Vector2D) (rnd : ℕ → ℚ × ℚ) :
    spawnWallCollision (getRandomSpawnPosition arena width height existing rnd)
        (getArenaLayout arena width height).walls = false
      ∨ getRandomSpawnPosition arena width height existing rnd
          = ⟨width / 2, height / 2⟩ := by
  unfold getRandomSpawnPosition
  rcases spawnLoop_spec (getArenaLayout arena width height).walls width height
      existing rnd 100 0 with h | h
  · left; exact h.1
  · right; exact h

theorem clonePass_length (ctx : SpawnCtx) (arena : String) (width height : ℚ)
    (gen : ℕ) :
    ∀ (l : List CreatureEntity) (slot : ℕ) (existing : List Vector2D),
      (clonePass ctx arena width height gen l slot existing).1.length = l.length := by
  intro l
  induction l with
  | nil => intro slot existing; rfl
  | cons c rest ih =>
      intro slot existing
      simp only [clonePass, List.length_cons, ih]

theorem freshPass_length (ctx : SpawnCtx) (arena : String) (width height : ℚ)
    (gen : ℕ) :
    ∀ (count i slot : ℕ) (existing : List Vector2D),
      (freshPass ctx arena width height gen count i slot existing).length = count := by
  intro count
  induction count with
  | zero => intro i slot existing; rfl
  | succ n ih =>
      intro i slot existing
      simp only [freshPass, List.length_cons, ih]

theorem clonePass_fitness (ctx : SpawnCtx) (arena : String) (width height : ℚ)
    (gen : ℕ) :
    ∀ (l : List CreatureEntity) (slot : ℕ) (existing : List Vector2D),
      ∀ c' ∈ (clonePass ctx arena width height gen l slot existing).1,
        c'.fitness = 0 := by
  intro l
  induction l with
  | nil => intro slot existing c' hc'; cases hc'
  | cons c rest ih =>
      intro slot existing c' hc'
      simp only [clonePass, List.mem_cons] at hc'
      rcases hc' with rfl | hc'
      · rfl
      · exact ih _ _ c' hc'

theorem freshPass_fitness (ctx : SpawnCtx) (arena : String) (width height : ℚ)
    (gen : ℕ) :
    ∀ (count i slot : ℕ) (existing : List Vector2D),
      ∀ c' ∈ freshPass ctx arena width height gen count i slot existing,
        c'.fitness = 0 := by
  intro count
  induction count with
  | zero => intro i slot existing c' hc'; cases hc'
  | succ n ih =>
      intro i slot existing c' hc'
      simp only [freshPass, List.mem_cons] at hc'
      rcases hc' with rfl | hc'
      · rfl
      · exact ih _ _ _ c' hc'

theorem clonePass_position (ctx : SpawnCtx) (arena : String) (width height : ℚ)
    (gen : ℕ) :
    ∀ (l : List CreatureEntity) (slot : ℕ) (existing : List Vector2D),
      ∀ c' ∈ (clonePass ctx arena width height gen l slot existing).1,
        ∃ (s : ℕ) (ex : List Vector2D),
          c'.position = getRandomSpawnPosition arena width height ex
            (ctx.spawnRnd s) := by
  intro l
  induction l with
  | nil => intro slot existing c' hc'; cases hc'
  | cons c rest ih =>
      intro slot existing c' hc'
      simp only [clonePass, List.mem_cons] at hc'
      rcases hc' with rfl | hc'
      · exact ⟨slot, existing, rfl⟩
      · exact ih _ _ c' hc'

theorem freshPass_position (ctx : SpawnCtx) (arena : String) (width height : ℚ)
    (gen : ℕ) :
    ∀ (count i slot : ℕ) (existing : List Vector2D),
      ∀ c' ∈ freshPass ctx arena width height gen count i slot existing,
        ∃ (s : ℕ) (ex : List Vector2D),
          c'.position = getRandomSpawnPosition arena width height ex
            (ctx.spawnRnd s) := by
  intro count
  induction count with
  | zero => intro i slot existing c' hc'; cases hc'
  | succ n ih =>
      intro i slot existing c' hc'
      simp only [freshPass, List.mem_cons] at hc'
      rcases hc' with rfl | hc'
      · exact ⟨slot, existing, rfl⟩
      · exact ih _ _ _ c' hc'

theorem clonePass_names (ctx : SpawnCtx) (arena : String) (width height : ℚ)
    (gen : ℕ) :
    ∀ (l : List CreatureEntity) (slot : ℕ) (existing : List Vector2D),
      (clonePass ctx arena width height gen l slot existing).1.map
          (fun c => c.name)
        = l.map (fun c => c.name) := by
  intro l
  induction l with
  | nil => intro slot existing; rfl
  | cons c rest ih =>
      intro slot existing
      simp only [clonePass, List.map_cons, ih]
      rfl

theorem createInitialPopulation_length (creatures : List CreatureEntity)
    (gen : ℕ) (ctx : SpawnCtx) (arena : String) (width height : ℚ) :
    (createInitialPopulation creatures gen ctx arena width height).length
      = (creatures.filter fun c => c.isPinned && c.arena == arena).length
        + (creatures.filter fun c => c.isSaved && !c.isPinned).length
        + (50 - ((creatures.filter fun c => c.isPinned && c.arena == arena).length
            + (creatures.filter fun c => c.isSaved && !c.isPinned).length)) := by
  unfold createInitialPopulation
  simp only [List.length_append, clonePass_length, freshPass_length]

/-- C5 amended: `createInitialPopulation` returns the pinned clones of the
target arena, then the saved-and-not-pinned clones, then `50 ∸ clones` fresh
random creatures — exactly 50 agents whenever the clones number at most 50
(with more than 50 pinned/saved creatures the loop bound `50 - length` is
negative and no fresh agent is added, so more than 50 are returned); every
member has fitness 0; and every member's spawn position either passed the
wall-overlap and separation checks or is the arena-centre fallback (which can
itself overlap a wall). -/
theorem createInitialPopulation_spec (creatures : List CreatureEntity)
    (currentGeneration : ℕ) (ctx : SpawnCtx) (arena : String) (width height : ℚ) :
    ((createInitialPopulation creatures currentGeneration ctx arena width height).length
      = (creatures.filter fun c => c.isPinned && c.arena == arena).length
        + (creatures.filter fun c => c.isSaved && !c.isPinned).length
        + (50 - ((creatures.filter fun c => c.isPinned && c.arena == arena).length
            + (creatures.filter fun c => c.isSaved && !c.isPinned).length)))
    ∧ ((creatures.filter fun c => c.isPinned && c.arena == arena).length
          + (creatures.filter fun c => c.isSaved && !c.isPinned).length ≤ 50 →
        (createInitialPopulation creatures currentGeneration ctx arena width
            height).length = 50)
    ∧ (∀ c' ∈ createInitialPopulation creatures currentGeneration ctx arena
          width height, c'.fitness = 0)
    ∧ (∀ c' ∈ createInitialPopulation creatures currentGeneration ctx arena
          width height,
        spawnWallCollision c'.position (getArenaLayout arena width height).walls
            = false
          ∨ c'.position = ⟨width / 2, height / 2⟩)
    ∧ (∃ (pinnedClones savedClones fresh : List CreatureEntity),
        createInitialPopulation creatures currentGeneration ctx arena width height
            = pinnedClones ++ savedClones ++ fresh
          ∧ pinnedClones.map (fun c => c.name)
              = (creatures.filter fun c => c.isPinned && c.arena == arena).map
                  (fun c => c.name)
          ∧ savedClones.map (fun c => c.name)
              = (creatures.filter fun c => c.isSaved && !c.isPinned).map
                  (fun c => c.name)
          ∧ fresh.length = 50 - (pinnedClones.length + savedClones.length)) := by
  refine ⟨createInitialPopulation_length creatures currentGeneration ctx arena
    width height, ?_, ?_, ?_, ?_⟩
  · intro hle
    rw [createInitialPopulation_length]
    omega
  · intro c' hc'
    unfold createInitialPopulation at hc'
    simp only [List.mem_append] at hc'
    rcases hc' with (h | h) | h
    · exact clonePass_fitness ctx arena width height currentGeneration _ _ _ c' h
    · exact clonePass_fitness ctx arena width height currentGeneration _ _ _ c' h
    · exact freshPass_fitness ctx arena width height currentGeneration _ _ _ _ c' h
  · intro c' hc'
    have hpos : ∃ (s : ℕ) (ex : List Vector2D),
        c'.position = getRandomSpawnPosition arena width height ex
          (ctx.spawnRnd s) := by
      unfold createInitialPopulation at hc'
      simp only [List.mem_append] at hc'
      rcases hc' with (h | h) | h
      · exact clonePass_position ctx arena width height currentGeneration _ _ _ c' h
      · exact clonePass_position ctx arena width height currentGeneration _ _ _ c' h
      · exact freshPass_position ctx arena width height currentGeneration _ _ _ _ c' h
    obtain ⟨s, ex, hpos⟩ := hpos
    rw [hpos]
    exact spawnPosition_ok arena width height ex (ctx.spawnRnd s)
  · unfold createInitialPopulation
    dsimp only
    refine ⟨_, _, _, rfl, ?_, ?_, ?_⟩
    · exact clonePass_names ctx arena width height currentGeneration _ _ _
    · exact clonePass_names ctx arena width height currentGeneration _ _ _
    · simp [freshPass_length, List.length_append, clonePass_length]

theorem createInitialPopulation_spec_witness :
    (((List.replicate 3 pinnedCreature ++ List.replicate 2 savedCreature).filter
          fun c => c.isPinned && c.arena == "main").length
        + ((List.replicate 3 pinnedCreature ++ List.replicate 2 savedCreature).filter
            fun c => c.isSaved && !c.isPinned).length ≤ 50)
    ∧ ((createInitialPopulation
          (List.replicate 3 pinnedCreature ++ List.replicate 2 savedCreature) 1
          testSpawnCtx "main" 800 600).length = 50) := by
  have hp : ((List.replicate 3 pinnedCreature ++ List.replicate 2 savedCreature).filter
      fun c => c.isPinned && c.arena == "main") = List.replicate 3 pinnedCreature := by
    rw [List.filter_append, List.filter_replicate, List.filter_replicate]
    simp [pinnedCreature, savedCreature, testCreature]
  have hs : ((List.replicate 3 pinnedCreature ++ List.replicate 2 savedCreature).filter
      fun c => c.isSaved && !c.isPinned) = List.replicate 2 savedCreature := by
    rw [List.filter_append, List.filter_replicate, List.filter_replicate]
    simp [pinnedCreature, savedCreature, testCreature]
  have hle : (((List.replicate 3 pinnedCreature ++ List.replicate 2 savedCreature).filter
        fun c => c.isPinned && c.arena == "main").length
      + ((List.replicate 3 pinnedCreature ++ List.replicate 2 savedCreature).filter
          fun c => c.isSaved && !c.isPinned).length ≤ 50) := by
    rw [hp, hs]
    simp
  exact ⟨hle,
    (createInitialPopulation_spec
      (List.replicate 3 pinnedCreature ++ List.replicate 2 savedCreature) 1
      testSpawnCtx "main" 800 600).2.1 hle⟩

/-- C5 counterexample: with 51 pinned creatures of the target arena the
function returns 51 agents, not 50; and when every random attempt lands in a
wall, `getRandomSpawnPosition` falls back to the arena centre `(400, 300)`,
which overlaps the centre pillar of the `main` arena, so spawn positions are
not always free of wall overlap. -/
theorem createInitialPopulation_counterexample :
    ((createInitialPopulation (List.replicate 51 pinnedCreature) 1 testSpawnCtx
        "main" 800 600).length = 51)
    ∧ (getRandomSpawnPosition "main" 800 600 [] (fun _ => (1/2, 1/2))
        = ⟨400, 300⟩)
    ∧ (spawnWallCollision ⟨400, 300⟩ (getArenaLayout "main" 800 600).walls
        = true) := by
  have hlayout : arenaLayoutsLookup "main" = some mainLayout := rfl
  have hwall : spawnWallCollision ⟨400, 300⟩ (getArenaLayout "main" 800 600).walls
      = true := by
    norm_num [getArenaLayout, hlayout, scaleArenaLayout, mainLayout, mkWall,
      spawnWallCollision, rectsOverlap, creatureBoundsAt]
  refine ⟨?_, ?_, hwall⟩
  · rw [createInitialPopulation_length]
    have hp : ((List.replicate 51 pinnedCreature).filter
        fun c => c.isPinned && c.arena == "main") = List.replicate 51 pinnedCreature := by
      rw [List.filter_replicate]
      simp [pinnedCreature, testCreature]
    have hs : ((List.replicate 51 pinnedCreature).filter
        fun c => c.isSaved && !c.isPinned) = [] := by
      rw [List.filter_replicate]
      simp [pinnedCreature, testCreature]
    rw [hp, hs]
    simp
  · have hcand : ∀ a, spawnCandidate 800 600 (fun _ => ((1 : ℚ)/2, (1 : ℚ)/2)) a
        = ⟨400, 300⟩ := by
      intro a
      simp only [spawnCandidate]
      norm_num
    unfold getRandomSpawnPosition
    rw [spawnLoop_fail _ _ _ _ _ ?_ 100 0]
    · norm_num
    · intro a
      left
      rw [hcand a]
      exact hwall

theorem genome_mutate_spec_witness :
    ((Genome.mutate (fun _ => 1/2) (fun _ => 1/2) 0 (1/10) testGenome testMetadata).genes
        = testGenome.genes)
    ∧ (∀ i, i < testGenome.genes.length →
        (Genome.mutate (fun _ => 1/4) (fun _ => 1/2)                 (1/2) (1/10)
            testGenome testMetadata).genes.getD i 0 = testGenome.genes.getD i 0
          ∨ ∃ δ : ℚ, |δ| ≤ (1/10) / 2 ∧
              (Genome.mutate (fun _ => 1/4) (fun _ => 1/2) (1/2) (1/10)
                testGenome testMetadata).genes.getD i 0
                = clampWeight (testGenome.genes.getD i 0 + δ)) :=
  ⟨genome_mutate_spec.2.2.1 (fun _ => 1/2) (fun _ => 1/2) (1/10) testGenome
      testMetadata (fun i => by norm_num),
   genome_mutate_spec.2.1 (fun _ => 1/4) (fun _ => 1/2) (1/2) (1/10) testGenome
      testMetadata (fun i => ⟨by norm_num, by norm_num⟩) (by norm_num)⟩

end EvoCreature
